import Mathlib

/-!
# Cozy Corner Cafe server: orders, payments, reservations, reviews, menu

A shallow embedding of the Express/Mongoose route handlers of
`server/src/routes/orders.js`, `server/src/routes/admin.js`,
`server/src/routes/payments.js`, `server/src/routes/reservations.js`,
`server/src/routes/reviews.js` and `server/src/routes/menu.js`, together with
the Mongoose schemas of `server/src/models` and the helpers of
`server/src/services/stripe.js`, `server/src/utils/payment.js` and
`server/src/utils/email.js`.

Modelling conventions.

* A collection is a `List` of documents in natural order; `findById` and
  `findOne` return the first match.
* A handler is a function from the request and the collections to the HTTP
  response and the collections afterwards.  A `try`/`catch` block is a match on
  an `Except` value; writes made before a throw are kept.
* A JavaScript number is the rational that the double denotes; the product
  `amount * 100` of the payment code is rounded to a double (`toDouble`), sums
  and the comparisons of finite values are taken exactly.
* Document ids and the ids of route parameters are natural numbers (well
  formed ObjectIds); the menu item id of an order line, a value of the request
  body, is an `IdArg`, which may be no ObjectId.
* `auth` / `adminAuth` (middleware/auth.js) have already run: the handler
  receives `req.user`.
* A stored date is the instant it denotes, in milliseconds; the date of a
  reservation body is a `DateArg`, which may fail the validator or be an
  Invalid Date.
* Options of the Mongoose library that the sources do not fix (`strictQuery`)
  are parameters of the handlers that depend on them.
-/

namespace Cafe

/-! ## Data model -/

/-- Document of models/MenuItem.js; the dietary flags, `spicyLevel` and
`popular` carry the schema defaults. -/
structure MenuItem where
  _id : Nat
  name : String
  price : ℚ
  category : String
  available : Bool
  description : String
  image : String
  vegetarian : Bool := false
  vegan : Bool := false
  glutenFree : Bool := false
  spicyLevel : ℚ := 0
  popular : Bool := false
deriving DecidableEq

/-- The authenticated caller `req.user`. -/
structure User where
  _id : Nat
  email : String
  role : String
deriving DecidableEq

/-- Sub-document of `orderItemSchema` (models/Order.js lines 3-19). -/
structure OrderItem where
  menuItem : Nat
  quantity : Int
  price : ℚ
deriving DecidableEq

/-- Nested `deliveryAddress` of `orderSchema`. -/
structure Address where
  street : String
  city : String
  state : String
  zipCode : String
deriving DecidableEq

/-- A stored document of the `Order` collection (models/Order.js lines 21-69). -/
structure Order where
  _id : Nat
  user : Nat
  items : List OrderItem
  totalAmount : ℚ
  status : String
  orderType : String
  deliveryAddress : Option Address
  paymentStatus : String
  paymentId : Option String
  paymentMethod : String
  createdAt : Int
deriving DecidableEq

/-- A stored document of the `Reservation` collection (models/Reservation.js).
`date` is the instant of the stored `Date`, in milliseconds. -/
structure Reservation where
  _id : Nat
  user : Nat
  date : Int
  time : String
  partySize : Int
  specialRequests : Option String
  status : String
deriving DecidableEq

/-- A stored document of the `Review` collection.  The fields up to `createdAt`
are the paths of `reviewSchema` (models/Review.js lines 3-31); `order` and
`status` are fields that a raw document of the collection may carry although
the schema does not declare them. -/
structure Review where
  _id : Nat
  user : Nat
  rating : ℚ
  comment : String
  images : List String
  verified : Bool
  createdAt : Nat
  order : Option Nat
  status : Option String
deriving DecidableEq

/-- A value in an object literal handed to a Mongoose constructor or query. -/
inductive Val where
  | undefined
  | num (q : ℚ)
  | str (s : String)
  | oid (n : Nat)
  | lines (xs : List OrderItem)
  | addr (a : Address)
  | strs (xs : List String)
  | bool (b : Bool)
deriving DecidableEq

/-- An object literal: its keys in source order with their values. -/
abbrev Obj := List (String × Val)

/-- Property read `o[k]`; a missing key reads as `undefined`. -/
def Obj.get (o : Obj) (k : String) : Val :=
  match o.lookup k with
  | some v => v
  | none => Val.undefined

def Val.asNum : Val → Option ℚ
  | Val.num q => some q
  | _ => none

def Val.asStr : Val → Option String
  | Val.str s => some s
  | _ => none

def Val.asOid : Val → Option Nat
  | Val.oid n => some n
  | _ => none

def Val.asLines : Val → List OrderItem
  | Val.lines xs => xs
  | _ => []

def Val.asAddr : Val → Option Address
  | Val.addr a => some a
  | _ => none

/-- What a handler's `try` block can throw. -/
inductive Thrown where
  | validationError (path : String)
  | referenceError (ident : String)
  | typeError (what : String)
  | signatureVerification
  | transportError
  | castError (path : String)
deriving DecidableEq

/-- The `err.message` of a thrown value. -/
def Thrown.message : Thrown → String
  | Thrown.validationError p => "Validation failed: " ++ p
  | Thrown.referenceError x => x ++ " is not defined"
  | Thrown.typeError w => w ++ " is not a function"
  | Thrown.signatureVerification => "No signatures found matching the expected signature for payload"
  | Thrown.transportError => "connect ECONNREFUSED"
  | Thrown.castError p => "Cast failed for value at path " ++ p

/-- Body of an HTTP response. -/
inductive Payload where
  | errors (msgs : List String)
  | message (m : String)
  | order (o : Order)
  | text (s : String)
  | received (b : Bool)
  | reservation (r : Reservation)
  | availability (available : Bool) (remainingTables : Int)
  | review (r : Review)
  | reviews (rs : List Review)
  | intent (clientSecret : String) (paymentIntentId : String)
  | menuItem (m : MenuItem)
  | dashboard (totalOrders totalReservations activeMenuItems totalUsers : Nat)
      (recentOrders : List Order) (recentReservations : List Reservation)
      (dailyRevenue : List (Int × ℚ))
deriving DecidableEq

/-- An HTTP response: status code and body. -/
structure Response where
  status : Nat
  body : Payload
deriving DecidableEq

/-! ## models/Order.js -/

/-- The `enum` of `orderSchema.status` (models/Order.js line 34). -/
def orderStatusEnum : List String :=
  ["pending", "confirmed", "preparing", "ready", "delivered", "cancelled"]

/-- The `enum` of `orderSchema.orderType` (line 39). -/
def orderTypeEnum : List String := ["pickup", "delivery"]

/-- The `enum` of `orderSchema.paymentStatus` (line 50). -/
def paymentStatusEnum : List String :=
  ["pending", "processing", "completed", "failed", "refunded"]

/-- The `enum` of `orderSchema.paymentMethod` (line 60). -/
def paymentMethodEnum : List String := ["card", "cash"]

/-- The top-level paths declared by `orderSchema`. -/
def orderSchemaPaths : List String :=
  ["user", "items", "totalAmount", "status", "orderType", "deliveryAddress",
   "paymentStatus", "paymentId", "paymentMethod", "refundId",
   "estimatedDeliveryTime", "createdAt"]

/-- An `Order` document in memory, before `save()`: required paths may be unset. -/
structure OrderDraft where
  user : Option Nat
  items : List OrderItem
  totalAmount : Option ℚ
  status : String
  orderType : Option String
  deliveryAddress : Option Address
  paymentStatus : String
  paymentId : Option String
  paymentMethod : String
  createdAt : Int
deriving DecidableEq

/-- The constructor `new Order(init)` at the instant `now`.  The schema is
strict: only keys that are schema paths are read; the declared defaults fill
unset paths (`createdAt` defaults to `Date.now`). -/
def Order.new (now : Int) (init : Obj) : OrderDraft :=
  let o : Obj := init.filter (fun kv => decide (kv.1 ∈ orderSchemaPaths))
  { user := (o.get "user").asOid
    items := (o.get "items").asLines
    totalAmount := (o.get "totalAmount").asNum
    status := ((o.get "status").asStr).getD "pending"
    orderType := (o.get "orderType").asStr
    deliveryAddress := (o.get "deliveryAddress").asAddr
    paymentStatus := ((o.get "paymentStatus").asStr).getD "pending"
    paymentId := (o.get "paymentId").asStr
    paymentMethod := ((o.get "paymentMethod").asStr).getD "card"
    createdAt := now }

/-- Schema validation run by `save()`: `required`, `enum` and `min`
validators of `orderSchema`; `id` is the document id. -/
def Order.validate (id : Nat) (d : OrderDraft) : Except Thrown Order :=
  match d.user, d.totalAmount, d.orderType with
  | none, _, _ => Except.error (Thrown.validationError "user")
  | some _, none, _ => Except.error (Thrown.validationError "totalAmount")
  | some _, some _, none => Except.error (Thrown.validationError "orderType")
  | some u, some t, some ty =>
    if ¬ (d.items.all (fun l => decide (1 ≤ l.quantity))) then
      Except.error (Thrown.validationError "items.quantity")
    else if d.status ∉ orderStatusEnum then
      Except.error (Thrown.validationError "status")
    else if ty ∉ orderTypeEnum then
      Except.error (Thrown.validationError "orderType")
    else if d.paymentStatus ∉ paymentStatusEnum then
      Except.error (Thrown.validationError "paymentStatus")
    else if d.paymentMethod ∉ paymentMethodEnum then
      Except.error (Thrown.validationError "paymentMethod")
    else
      Except.ok
        { _id := id, user := u, items := d.items, totalAmount := t,
          status := d.status, orderType := ty,
          deliveryAddress := d.deliveryAddress,
          paymentStatus := d.paymentStatus, paymentId := d.paymentId,
          paymentMethod := d.paymentMethod, createdAt := d.createdAt }

/-- The id Mongoose gives a new document: one not used in the collection. -/
def freshId (orders : List Order) : Nat :=
  (orders.map (fun o => o._id)).foldr max 0 + 1

/-- A value sent in a request body where an ObjectId is expected: a well-formed
id, or a non-empty value that is no ObjectId (such as the string 'abc'), which
Mongoose cannot cast. -/
inductive IdArg where
  | oid (n : Nat)
  | malformed (s : String)
deriving DecidableEq

instance (n : Nat) : OfNat IdArg n := ⟨IdArg.oid n⟩

/-- The call `MenuItem.findById(id)` with a value of a request body: a value
that is no ObjectId makes the query cast throw a CastError; `none` is an absent
id, for which the query finds nothing. -/
def MenuItem.findById (menu : List MenuItem) (id : Option IdArg) :
    Except Thrown (Option MenuItem) :=
  match id with
  | none => Except.ok none
  | some (IdArg.malformed _) => Except.error (Thrown.castError "_id")
  | some (IdArg.oid i) => Except.ok (menu.find? (fun m => m._id == i))

/-- The call `Order.findById(id)`. -/
def Order.findById (orders : List Order) (id : Nat) : Option Order :=
  orders.find? (fun o => o._id == id)

/-- Rewrite the first document that satisfies `p`: the write of
`findOneAndUpdate(p, f)`, and of `findOne(p)` followed by assignments `f` and
`save()` (which writes back the loaded document). -/
def updateFirst {α : Type} (p : α → Bool) (f : α → α) : List α → List α
  | [] => []
  | o :: os => if p o then f o :: os else o :: updateFirst p f os

/-- The white space and line terminator characters that `trim` removes. -/
def isJsSpace (c : Char) : Bool :=
  c.toNat == 9 || c.toNat == 10 || c.toNat == 11 || c.toNat == 12 || c.toNat == 13 ||
  c.toNat == 32 || c.toNat == 160 || c.toNat == 5760 ||
  (decide (8192 ≤ c.toNat) && decide (c.toNat ≤ 8202)) ||
  c.toNat == 8232 || c.toNat == 8233 || c.toNat == 8239 || c.toNat == 8287 ||
  c.toNat == 12288 || c.toNat == 65279

/-- The string method `trim()`, as the `trim` sanitizer and the `trim` schema
option apply it. -/
def jsTrim (s : String) : String :=
  String.mk (((s.data.dropWhile isJsSpace).reverse.dropWhile isJsSpace).reverse)

/-! ## utils/email.js -/

/-- The keys of the `emailTemplates` object (utils/email.js lines 28-55). -/
def emailTemplates : List String := ["reservationConfirmation", "orderConfirmation"]

/-- The call `emailTemplates.name(...)`: a key the object lacks is `undefined`,
and calling it throws a TypeError.  `sendEmail` itself catches transport
failures and never throws. -/
def callTemplate (name : String) : Except Thrown Unit :=
  if name ∈ emailTemplates then Except.ok ()
  else Except.error (Thrown.typeError ("emailTemplates." ++ name))

/-- The function `sendEmail` (utils/email.js lines 13-26): `transport` is the
outcome of `transporter.sendMail`; a failure is caught and logged and the
result is `false`.  No handler reads the result. -/
def sendEmail (transport : Except Thrown Unit) : Bool :=
  match transport with
  | Except.ok _ => true
  | Except.error _ => false

/-! ## routes/orders.js: POST / -/

/-- One element of `req.body.items`: `menuItem = none` is an absent or empty
value, which fails `notEmpty()`; `quantity` is a JSON number with an integer
value (a value of 1e21 or more is written with an exponent and fails `isInt`). -/
structure OrderLineReq where
  menuItem : Option IdArg
  quantity : Int
deriving DecidableEq

/-- The body of `POST /api/orders`; `items = none` is an absent value or a
primitive one (a string, a number), which is not an array and has no elements
for the wildcard checks. -/
structure OrderBody where
  items : Option (List OrderLineReq)
  orderType : String
  deliveryAddress : Option Address
  specialInstructions : Option String
  status : Option String
  paymentStatus : Option String
deriving DecidableEq

/-- The express-validator chain of `POST /` (orders.js lines 43-49): the
messages of the failed checks. -/
def validateOrderBody (b : OrderBody) : List String :=
  (match b.items with
   | none => ["Items must be an array"]
   | some ls =>
     (ls.filter (fun l => l.menuItem.isNone)).map (fun _ => "Menu item ID is required") ++
     (ls.filter (fun l => decide (l.quantity < 1 ∨ 1000000000000000000000 ≤ l.quantity))).map
       (fun _ => "Quantity must be at least 1")) ++
  (if b.orderType ∈ ["delivery", "pickup"] then [] else ["Invalid order type"])

/-- The text of `item.menuItem` inside the template string of line 65. -/
def showId : Option IdArg → String
  | none => "undefined"
  | some (IdArg.oid n) => toString n
  | some (IdArg.malformed s) => s

/-- The 400 response of orders.js lines 64-66. -/
def itemUnavailable (id : Option IdArg) : Response :=
  { status := 400, body := Payload.message ("Menu item " ++ showId id ++ " is not available") }

/-- The `for` loop of orders.js lines 61-75, with the running `total` and
`validatedItems`; `Except.error` is the response that ends the handler: that of
an early `return`, or that of the `catch` of lines 104-106 when `findById`
throws. -/
def orderLoop (menu : List MenuItem) :
    List OrderLineReq → ℚ → List OrderItem → Except Response (ℚ × List OrderItem)
  | [], total, validatedItems => Except.ok (total, validatedItems)
  | item :: rest, total, validatedItems =>
    match MenuItem.findById menu item.menuItem with
    | Except.error _ =>
      Except.error { status := 500, body := Payload.message "Error creating order" }
    | Except.ok none => Except.error (itemUnavailable item.menuItem)
    | Except.ok (some menuItem) =>
      if ¬ menuItem.available then Except.error (itemUnavailable item.menuItem)
      else
        orderLoop menu rest (total + menuItem.price * item.quantity)
          (validatedItems ++
            [{ menuItem := menuItem._id, quantity := item.quantity, price := menuItem.price }])

/-- The delivery fee step of orders.js lines 78-80. -/
def addDeliveryFee (orderType : String) (total : ℚ) : ℚ :=
  if orderType = "delivery" then total + 5 else total

/-- The object literal of orders.js lines 82-90. -/
def orderInit (user : User) (b : OrderBody) (validatedItems : List OrderItem) (total : ℚ) : Obj :=
  [("user", Val.oid user._id),
   ("items", Val.lines validatedItems),
   ("total", Val.num total),
   ("orderType", Val.str b.orderType),
   ("deliveryAddress", match b.deliveryAddress with
                       | some a => Val.addr a
                       | none => Val.undefined),
   ("specialInstructions", match b.specialInstructions with
                           | some s => Val.str s
                           | none => Val.undefined),
   ("status", Val.str "pending")]

/-- The handler of `POST /api/orders` (orders.js lines 50-107) at the instant
`now`. -/
def createOrder (now : Int) (user : User) (b : OrderBody) (menu : List MenuItem) (orders : List Order) :
    Response × List Order :=
  let errors := validateOrderBody b
  if errors ≠ [] then ({ status := 400, body := Payload.errors errors }, orders)
  else
    match orderLoop menu (b.items.getD []) 0 [] with
    | Except.error r => (r, orders)
    | Except.ok (total, validatedItems) =>
      let total := addDeliveryFee b.orderType total
      let order := Order.new now (orderInit user b validatedItems total)
      match Order.validate (freshId orders) order with
      | Except.error _ => ({ status := 500, body := Payload.message "Error creating order" }, orders)
      | Except.ok saved =>
        let orders := orders ++ [saved]
        match callTemplate "orderConfirmation" with
        | Except.error _ =>
          ({ status := 500, body := Payload.message "Error creating order" }, orders)
        | Except.ok _ => ({ status := 201, body := Payload.order saved }, orders)

/-! ## routes/orders.js: PATCH /:id/status and DELETE /:id -/

/-- The in-memory form of a loaded document. -/
def Order.toDraft (o : Order) : OrderDraft :=
  { user := some o.user, items := o.items, totalAmount := some o.totalAmount,
    status := o.status, orderType := some o.orderType,
    deliveryAddress := o.deliveryAddress, paymentStatus := o.paymentStatus,
    paymentId := o.paymentId, paymentMethod := o.paymentMethod, createdAt := o.createdAt }

/-- The values accepted by `body('status').isIn([...])` (orders.js line 115). -/
def patchStatusValues : List String :=
  ["pending", "preparing", "ready", "in-delivery", "completed", "cancelled"]

/-- The handler of `PATCH /api/orders/:id/status` (orders.js lines 118-153). -/
def updateOrderStatus (user : User) (id : Nat) (status : String) (orders : List Order) :
    Response × List Order :=
  if user.role ≠ "admin" then
    ({ status := 403, body := Payload.message "Not authorized" }, orders)
  else if status ∉ patchStatusValues then
    ({ status := 400, body := Payload.errors ["Invalid status"] }, orders)
  else
    match Order.findById orders id with
    | none => ({ status := 404, body := Payload.message "Order not found" }, orders)
    | some order =>
      let order := { order with status := status }
      match Order.validate order._id order.toDraft with
      | Except.error _ =>
        ({ status := 500, body := Payload.message "Error updating order status" }, orders)
      | Except.ok saved =>
        let orders := updateFirst (fun o => o._id == id) (fun _ => saved) orders
        match callTemplate "orderStatusUpdate" with
        | Except.error _ =>
          ({ status := 500, body := Payload.message "Error updating order status" }, orders)
        | Except.ok _ => ({ status := 200, body := Payload.order saved }, orders)

/-- The query of `Order.findOne` in `DELETE /:id` (orders.js lines 159-163). -/
def cancelQuery (user : User) (id : Nat) (o : Order) : Bool :=
  o._id == id && o.user == user._id && o.status == "pending"

/-- The handler of `DELETE /api/orders/:id` (orders.js lines 157-187). -/
def cancelOrder (user : User) (id : Nat) (orders : List Order) : Response × List Order :=
  match orders.find? (cancelQuery user id) with
  | none =>
    ({ status := 404, body := Payload.message "Order not found or cannot be cancelled" }, orders)
  | some order =>
    let order := { order with status := "cancelled" }
    match Order.validate order._id order.toDraft with
    | Except.error _ =>
      ({ status := 500, body := Payload.message "Error cancelling order" }, orders)
    | Except.ok saved =>
      let orders := updateFirst (cancelQuery user id) (fun _ => saved) orders
      match callTemplate "orderCancellation" with
      | Except.error _ =>
        ({ status := 500, body := Payload.message "Error cancelling order" }, orders)
      | Except.ok _ =>
        ({ status := 200, body := Payload.message "Order cancelled successfully" }, orders)

/-! ## routes/admin.js: PUT /orders/:id -/

/-- The handler of `PUT /api/admin/orders/:id` (admin.js lines 189-205), reached
after `adminAuth`.  `findByIdAndUpdate` is called without `runValidators`, so
the schema validators do not run on the update. -/
def adminUpdateOrder (id : Nat) (status : String) (orders : List Order) :
    Response × List Order :=
  match Order.findById orders id with
  | none => ({ status := 404, body := Payload.message "Order not found" }, orders)
  | some order =>
    ({ status := 200, body := Payload.order { order with status := status } },
     updateFirst (fun o => o._id == id) (fun o => { o with status := status }) orders)

/-! ## routes/payments.js: POST /webhook -/

/-- A Stripe event: `event.type` and `event.data.object.id`. -/
structure Event where
  type : String
  objectId : String
deriving DecidableEq

/-- The Stripe client library with the webhook secret of the environment:
`constructEvent payload sig` is `none` when the library throws. -/
structure StripeLib where
  constructEvent : String → Option String → Option Event

/-- A webhook request: raw body and the `stripe-signature` header. -/
structure WebhookReq where
  body : String
  signature : Option String
deriving DecidableEq

/-- The identifiers bound at module level in routes/payments.js (lines 1-6). -/
def paymentsModuleScope : List String :=
  ["express", "auth", "createPaymentIntent", "retrievePaymentIntent", "Order", "router"]

/-- Evaluation of the identifier `stripe` in a module scope: an undeclared
identifier throws a ReferenceError. -/
def evalStripe (scope : List String) (lib : StripeLib) : Except Thrown StripeLib :=
  if "stripe" ∈ scope then Except.ok lib else Except.error (Thrown.referenceError "stripe")

/-- The expression `stripe.webhooks.constructEvent(req.body, sig, secret)` of
payments.js lines 42-46. -/
def constructEventCall (scope : List String) (lib : StripeLib) (req : WebhookReq) :
    Except Thrown Event :=
  match evalStripe scope lib with
  | Except.error e => Except.error e
  | Except.ok stripe =>
    match stripe.constructEvent req.body req.signature with
    | some event => Except.ok event
    | none => Except.error Thrown.signatureVerification

/-- The `switch (event.type)` of payments.js lines 53-77. -/
def handleEvent (event : Event) (orders : List Order) : List Order :=
  if event.type = "payment_intent.succeeded" then
    updateFirst (fun o => o.paymentId == some event.objectId)
      (fun o => { o with paymentStatus := "completed", status := "confirmed" }) orders
  else if event.type = "payment_intent.payment_failed" then
    updateFirst (fun o => o.paymentId == some event.objectId)
      (fun o => { o with paymentStatus := "failed", status := "cancelled" }) orders
  else orders

/-- The webhook handler (payments.js lines 37-80) evaluated in a module scope. -/
def webhookIn (scope : List String) (lib : StripeLib) (req : WebhookReq) (orders : List Order) :
    Response × List Order :=
  match constructEventCall scope lib req with
  | Except.error err =>
    ({ status := 400, body := Payload.text ("Webhook Error: " ++ err.message) }, orders)
  | Except.ok event =>
    ({ status := 200, body := Payload.received true }, handleEvent event orders)

/-- The handler of `POST /api/payments/webhook` as routes/payments.js defines it. -/
def webhook (lib : StripeLib) (req : WebhookReq) (orders : List Order) : Response × List Order :=
  webhookIn paymentsModuleScope lib req orders

/-! ## models/Reservation.js and routes/reservations.js -/

/-- The `enum` of `reservationSchema.status` (models/Reservation.js line 28). -/
def reservationStatusEnum : List String := ["pending", "confirmed", "cancelled"]

/-- Schema validation run by `save()` on a reservation: the `enum` of `status`
and the `min` of `partySize`; the required paths are present by type. -/
def Reservation.validate (r : Reservation) : Except Thrown Reservation :=
  if r.partySize < 1 then Except.error (Thrown.validationError "partySize")
  else if r.status ∉ reservationStatusEnum then Except.error (Thrown.validationError "status")
  else Except.ok r

/-- The id Mongoose gives a new document, from the ids in use. -/
def freshIdOf (ids : List Nat) : Nat := ids.foldr max 0 + 1

/-- The regular expression `/^([0-1]?[0-9]|2[0-3]):[0-5][0-9]$/` of
reservations.js lines 61 and 113, as a matcher on the whole string. -/
def matchesTime (s : String) : Bool :=
  match s.data with
  | [h, c, m1, m2] =>
    h.isDigit && c == ':' && (decide ('0' ≤ m1) && decide (m1 ≤ '5')) && m2.isDigit
  | [h1, h2, c, m1, m2] =>
    (((h1 == '0' || h1 == '1') && h2.isDigit) ||
      (h1 == '2' && (decide ('0' ≤ h2) && decide (h2 ≤ '3')))) &&
    c == ':' && (decide ('0' ≤ m1) && decide (m1 ≤ '5')) && m2.isDigit
  | _ => false

/-- The `date` of a reservation body, by what the handlers read of it. -/
inductive DateArg where
  /-- A value that fails `isISO8601()`. -/
  | invalid
  /-- A string that passes `isISO8601()` and of which `new Date` makes an
  Invalid Date, such as the week date '2024-W03-2'. -/
  | unparsable
  /-- A string that passes `isISO8601()` and denotes the instant `t`. -/
  | instant (t : Int)
deriving DecidableEq

/-- The check `isISO8601()` of express-validator on the date. -/
@[simp]
def DateArg.isISO8601 : DateArg → Bool
  | DateArg.invalid => false
  | _ => true

/-- The value of `new Date(req.body.date)`; `none` is an Invalid Date, on which
the cast of a query or of a document throws. -/
@[simp]
def DateArg.toDate : DateArg → Option Int
  | DateArg.instant t => some t
  | _ => none

/-- The body of `POST /api/reservations` and `PUT /api/reservations/:id`. -/
structure ReservationBody where
  date : DateArg
  time : String
  partySize : Int
  specialRequests : Option String
deriving DecidableEq

/-- The express-validator chain of reservations.js lines 59-63 and 111-115. -/
def validateReservationBody (b : ReservationBody) : List String :=
  (if b.date.isISO8601 then [] else ["Valid date is required"]) ++
  (if matchesTime b.time then [] else ["Valid time is required"]) ++
  (if 1 ≤ b.partySize ∧ b.partySize ≤ 20 then []
   else ["Party size must be between 1 and 20"])

/-- The query `{ date, time, status: { $ne: 'cancelled' } }` of reservations.js
lines 42-46 and 72-76. -/
def slotQuery (date : Int) (time : String) (r : Reservation) : Bool :=
  r.date == date && r.time == time && r.status != "cancelled"

/-- The query of reservations.js lines 134-139, which also excludes the
reservation being updated. -/
def slotQueryExcept (date : Int) (time : String) (id : Nat) (r : Reservation) : Bool :=
  r.date == date && r.time == time && r._id != id && r.status != "cancelled"

/-- The query `{ _id: req.params.id, user: req.user._id }`. -/
def ownQuery (user : User) (id : Nat) (r : Reservation) : Bool :=
  r._id == id && r.user == user._id

/-- The handler of `GET /api/reservations/check-availability/:date/:time`
(reservations.js lines 39-54).  `date` is the value of `new Date(date)`, `none`
for an Invalid Date, on which the query cast throws. -/
def checkAvailability (date : Option Int) (time : String) (rs : List Reservation) : Response :=
  match date with
  | none => { status := 500, body := Payload.message "Error checking availability" }
  | some d =>
    let existingReservations := rs.filter (slotQuery d time)
    let isAvailable := decide (existingReservations.length < 20)
    { status := 200,
      body := Payload.availability isAvailable (20 - (existingReservations.length : Int)) }

/-- The handler of `POST /api/reservations` (reservations.js lines 64-105). -/
def createReservation (user : User) (b : ReservationBody) (rs : List Reservation) :
    Response × List Reservation :=
  let errors := validateReservationBody b
  if errors ≠ [] then ({ status := 400, body := Payload.errors errors }, rs)
  else
    match b.date.toDate with
    | none => ({ status := 500, body := Payload.message "Error creating reservation" }, rs)
    | some d =>
      let existingReservations := rs.filter (slotQuery d b.time)
      if existingReservations.length ≥ 20 then
        ({ status := 400, body := Payload.message "Selected time slot is fully booked" }, rs)
      else
        let reservation : Reservation :=
          { _id := freshIdOf (rs.map (fun r => r._id)), user := user._id, date := d,
            time := b.time, partySize := b.partySize,
            specialRequests := b.specialRequests.map jsTrim, status := "pending" }
        match Reservation.validate reservation with
        | Except.error _ =>
          ({ status := 500, body := Payload.message "Error creating reservation" }, rs)
        | Except.ok saved =>
          let rs := rs ++ [saved]
          match callTemplate "reservationConfirmation" with
          | Except.error _ =>
            ({ status := 500, body := Payload.message "Error creating reservation" }, rs)
          | Except.ok _ => ({ status := 201, body := Payload.reservation saved }, rs)

/-- The handler of `PUT /api/reservations/:id` (reservations.js lines 116-165). -/
def updateReservation (user : User) (id : Nat) (b : ReservationBody) (rs : List Reservation) :
    Response × List Reservation :=
  let errors := validateReservationBody b
  if errors ≠ [] then ({ status := 400, body := Payload.errors errors }, rs)
  else
    match rs.find? (ownQuery user id) with
    | none => ({ status := 404, body := Payload.message "Reservation not found" }, rs)
    | some reservation =>
      match b.date.toDate with
      | none => ({ status := 500, body := Payload.message "Error updating reservation" }, rs)
      | some d =>
        let existingReservations := rs.filter (slotQueryExcept d b.time id)
        if existingReservations.length ≥ 20 then
          ({ status := 400, body := Payload.message "Selected time slot is fully booked" }, rs)
        else
          let reservation :=
            { reservation with
              date := d, time := b.time, partySize := b.partySize,
              specialRequests := b.specialRequests.map jsTrim }
          match Reservation.validate reservation with
          | Except.error _ =>
            ({ status := 500, body := Payload.message "Error updating reservation" }, rs)
          | Except.ok saved =>
            let rs := updateFirst (ownQuery user id) (fun _ => saved) rs
            match callTemplate "reservationUpdate" with
            | Except.error _ =>
              ({ status := 500, body := Payload.message "Error updating reservation" }, rs)
            | Except.ok _ => ({ status := 200, body := Payload.reservation saved }, rs)

/-- The handler of `DELETE /api/reservations/:id` (reservations.js lines 169-197). -/
def cancelReservation (user : User) (id : Nat) (rs : List Reservation) :
    Response × List Reservation :=
  match rs.find? (ownQuery user id) with
  | none => ({ status := 404, body := Payload.message "Reservation not found" }, rs)
  | some reservation =>
    let reservation := { reservation with status := "cancelled" }
    match Reservation.validate reservation with
    | Except.error _ =>
      ({ status := 500, body := Payload.message "Error cancelling reservation" }, rs)
    | Except.ok saved =>
      let rs := updateFirst (ownQuery user id) (fun _ => saved) rs
      match callTemplate "reservationCancellation" with
      | Except.error _ =>
        ({ status := 500, body := Payload.message "Error cancelling reservation" }, rs)
      | Except.ok _ =>
        ({ status := 200, body := Payload.message "Reservation cancelled successfully" }, rs)

/-- The handler of `PUT /api/admin/reservations/:id` (admin.js lines 158-174),
reached after `adminAuth`; the update runs no validator. -/
def adminUpdateReservation (id : Nat) (status : String) (rs : List Reservation) :
    Response × List Reservation :=
  match rs.find? (fun r => r._id == id) with
  | none => ({ status := 404, body := Payload.message "Reservation not found" }, rs)
  | some reservation =>
    ({ status := 200, body := Payload.reservation { reservation with status := status } },
     updateFirst (fun r => r._id == id) (fun r => { r with status := status }) rs)

/-- Spec-side predicate: the reservation has the date and the time and its
status is not `cancelled`. -/
def inSlot (date : Int) (time : String) (r : Reservation) : Bool :=
  decide (r.date = date ∧ r.time = time ∧ r.status ≠ "cancelled")

/-- Spec-side count: the number of reservations with the date and time whose
status is not `cancelled`. -/
def slotCount (rs : List Reservation) (date : Int) (time : String) : Nat :=
  rs.countP (inSlot date time)

/-- Spec-side invariant: every (date, time) slot holds at most 20 reservations
that are not cancelled. -/
def capacityOk (rs : List Reservation) : Prop :=
  ∀ (date : Int) (time : String), slotCount rs date time ≤ 20

/-- The store keeps document ids unique. -/
def uniqueIds (rs : List Reservation) : Prop := (rs.map (fun r => r._id)).Nodup

/-! ## models/Review.js and routes/reviews.js -/

def Val.asStrs : Val → List String
  | Val.strs xs => xs
  | _ => []

/-- The paths declared by `reviewSchema` (models/Review.js lines 3-31), with the
implicit `_id`. -/
def reviewSchemaPaths : List String :=
  ["_id", "user", "rating", "comment", "images", "verified", "createdAt"]

/-- The value of a field of a stored review document, as a query sees it. -/
def Review.field (r : Review) (k : String) : Val :=
  if k = "_id" then Val.oid r._id
  else if k = "user" then Val.oid r.user
  else if k = "rating" then Val.num r.rating
  else if k = "comment" then Val.str r.comment
  else if k = "images" then Val.strs r.images
  else if k = "verified" then Val.bool r.verified
  else if k = "createdAt" then Val.num r.createdAt
  else if k = "order" then
    (match r.order with
     | some o => Val.oid o
     | none => Val.undefined)
  else if k = "status" then
    (match r.status with
     | some st => Val.str st
     | none => Val.undefined)
  else Val.undefined

/-- An equality filter `Review.find(filter)` on one document.  `strictQuery` is
the Mongoose option of that name: when set, keys that are not schema paths are
removed from the filter; when unset, they are sent to the database as they
are. -/
def Review.matches (strictQuery : Bool) (filter : Obj) (r : Review) : Bool :=
  (if strictQuery then filter.filter (fun kv => decide (kv.1 ∈ reviewSchemaPaths))
   else filter).all (fun kv => r.field kv.1 == kv.2)

/-- A `Review` document in memory, before `save()`. -/
structure ReviewDraft where
  user : Option Nat
  rating : Option ℚ
  comment : Option String
  images : List String
  verified : Bool
  createdAt : Nat
deriving DecidableEq

/-- The constructor `new Review(init)` at time `now`.  The schema is strict:
only keys that are schema paths are read; defaults fill `verified` and
`createdAt`. -/
def Review.new (now : Nat) (init : Obj) : ReviewDraft :=
  let o : Obj := init.filter (fun kv => decide (kv.1 ∈ reviewSchemaPaths))
  { user := (o.get "user").asOid
    rating := (o.get "rating").asNum
    comment := ((o.get "comment").asStr).map jsTrim
    images := (o.get "images").asStrs
    verified := false
    createdAt := now }

/-- Schema validation run by `save()` on a review and the document written:
only schema paths are written. -/
def Review.validate (id : Nat) (d : ReviewDraft) : Except Thrown Review :=
  match d.user, d.rating, d.comment with
  | none, _, _ => Except.error (Thrown.validationError "user")
  | some _, none, _ => Except.error (Thrown.validationError "rating")
  | some _, some _, none => Except.error (Thrown.validationError "comment")
  | some u, some q, some c =>
    if q < 1 ∨ 5 < q then Except.error (Thrown.validationError "rating")
    else if c = "" then Except.error (Thrown.validationError "comment")
    else
      Except.ok
        { _id := id, user := u, rating := q, comment := c, images := d.images,
          verified := d.verified, createdAt := d.createdAt, order := none, status := none }

/-- The body of `POST /api/reviews`. -/
structure ReviewBody where
  orderId : Option Nat
  rating : Int
  comment : String
  images : Option (List String)
deriving DecidableEq

/-- The express-validator chain of reviews.js lines 98-102. -/
def validateReviewBody (b : ReviewBody) : List String :=
  (if b.orderId.isNone then ["Order ID is required"] else []) ++
  (if 1 ≤ b.rating ∧ b.rating ≤ 5 then [] else ["Rating must be between 1 and 5"]) ++
  (if 10 ≤ (jsTrim b.comment).length then []
   else ["Comment must be at least 10 characters long"])

/-- The query of `Order.findOne` in reviews.js lines 111-115. -/
def eligibleQuery (user : User) (orderId : Nat) (o : Order) : Bool :=
  o._id == orderId && o.user == user._id && o.status == "completed"

/-- The object literal of reviews.js lines 135-142. -/
def reviewInit (user : User) (orderId : Nat) (b : ReviewBody) : Obj :=
  [("user", Val.oid user._id),
   ("order", Val.oid orderId),
   ("rating", Val.num b.rating),
   ("comment", Val.str (jsTrim b.comment)),
   ("images", Val.strs (b.images.getD [])),
   ("status", Val.str "pending")]

/-- The handler of `POST /api/reviews` (reviews.js lines 103-149). -/
def createReview (strictQuery : Bool) (now : Nat) (user : User) (b : ReviewBody)
    (orders : List Order) (reviews : List Review) : Response × List Review :=
  let errors := validateReviewBody b
  if errors ≠ [] then ({ status := 400, body := Payload.errors errors }, reviews)
  else
    match b.orderId with
    | none =>
      ({ status := 400, body := Payload.message "Order not found or not eligible for review" },
       reviews)
    | some orderId =>
      match orders.find? (eligibleQuery user orderId) with
      | none =>
        ({ status := 400, body := Payload.message "Order not found or not eligible for review" },
         reviews)
      | some _ =>
        match reviews.find? (Review.matches strictQuery
            [("order", Val.oid orderId), ("user", Val.oid user._id)]) with
        | some _ =>
          ({ status := 400, body := Payload.message "You have already reviewed this order" },
           reviews)
        | none =>
          let review := Review.new now (reviewInit user orderId b)
          match Review.validate (freshIdOf (reviews.map (fun r => r._id))) review with
          | Except.error _ =>
            ({ status := 500, body := Payload.message "Error creating review" }, reviews)
          | Except.ok saved => ({ status := 201, body := Payload.review saved }, reviews ++ [saved])

/-- The in-memory form of a loaded review. -/
def Review.toDraft (r : Review) : ReviewDraft :=
  { user := some r.user, rating := some r.rating, comment := some r.comment,
    images := r.images, verified := r.verified, createdAt := r.createdAt }

/-- The call `save()` on a loaded review: the schema validators run on the
document, and the write sets schema paths only, so fields of the stored
document outside the schema stay as they are. -/
def Review.save (r : Review) : Except Thrown Review :=
  match Review.validate r._id r.toDraft with
  | Except.error e => Except.error e
  | Except.ok _ => Except.ok r

/-- The assignment `review[k] = v` on a loaded document: a key that is not a
schema path becomes a plain property of the object and is not part of the
document; the paths that the routes assign are `rating`, `comment` and
`images`. -/
def Review.assign (r : Review) (k : String) (v : Val) : Review :=
  if k ∉ reviewSchemaPaths then r
  else if k = "rating" then
    (match v with
     | Val.num q => { r with rating := q }
     | _ => r)
  else if k = "comment" then
    (match v with
     | Val.str c => { r with comment := c }
     | _ => r)
  else if k = "images" then
    (match v with
     | Val.strs xs => { r with images := xs }
     | _ => r)
  else r

/-- The handler of `PATCH /api/reviews/:id/moderate` (reviews.js lines 215-241)
at time `now`. -/
def moderateReview (now : Nat) (user : User) (id : Nat) (status : String)
    (moderationComment : Option String) (reviews : List Review) : Response × List Review :=
  if user.role ≠ "admin" then
    ({ status := 403, body := Payload.message "Not authorized" }, reviews)
  else if status ∉ ["pending", "approved", "rejected"] then
    ({ status := 400, body := Payload.errors ["Invalid status"] }, reviews)
  else
    match reviews.find? (fun r => r._id == id) with
    | none => ({ status := 404, body := Payload.message "Review not found" }, reviews)
    | some review =>
      let review := review.assign "status" (Val.str status)
      let review := review.assign "moderationComment"
        (match moderationComment with
         | some c => Val.str (jsTrim c)
         | none => Val.undefined)
      let review := review.assign "moderatedAt" (Val.num now)
      let review := review.assign "moderatedBy" (Val.oid user._id)
      match review.save with
      | Except.error _ =>
        ({ status := 500, body := Payload.message "Error moderating review" }, reviews)
      | Except.ok saved =>
        ({ status := 200, body := Payload.review saved },
         updateFirst (fun r => r._id == id) (fun _ => saved) reviews)

/-- The handler of the public listing `GET /api/reviews` (reviews.js lines
10-21): the documents matching `{ status: 'approved' }`, newest first. -/
def listReviews (strictQuery : Bool) (reviews : List Review) : Response :=
  { status := 200,
    body := Payload.reviews
      ((reviews.filter (Review.matches strictQuery [("status", Val.str "approved")])).insertionSort
        (fun a b => b.createdAt ≤ a.createdAt)) }

/-! ## services/stripe.js, utils/payment.js and routes/payments.js: POST /create-payment-intent -/

/-- The integer nearest to `x`, a tie going to the even one. -/
def roundHalfEven (x : ℚ) : Int :=
  if x - ⌊x⌋ < 1 / 2 then ⌊x⌋
  else if 1 / 2 < x - ⌊x⌋ then ⌊x⌋ + 1
  else if ⌊x⌋ % 2 = 0 then ⌊x⌋
  else ⌊x⌋ + 1

/-- The exponent of the binade of `x` in IEEE 754 binary64: the `e` with
`2 ^ e ≤ |x| < 2 ^ (e + 1)`, and -1022 for zero and for a value below
`2 ^ (-1022)`, where the doubles are subnormal. -/
def binade (x : ℚ) : Int := max (Int.log 2 |x|) (-1022)

/-- The distance of neighbouring doubles in the binade of `x`: the significand
has 53 bits. -/
def ulp (x : ℚ) : ℚ := 2 ^ (binade x - 52)

/-- The double nearest to `x`, a tie going to the even significand: the
rounding of every arithmetic operation of a JavaScript number.  A value whose
magnitude reaches `2 ^ 1024` has no finite double and is left out. -/
def toDouble (x : ℚ) : ℚ := roundHalfEven (x / ulp x) * ulp x

/-- The operator `*` of JavaScript on two finite doubles: the exact product,
rounded to a double. -/
def fmul (a b : ℚ) : ℚ := toDouble (a * b)

/-- The function `Math.round`: the nearest integer, a tie going up. -/
def Math.round (x : ℚ) : Int := ⌊x + 1 / 2⌋

/-- The function `formatStripeAmount` (utils/payment.js lines 15-18). -/
def formatStripeAmount (amount : ℚ) : Int := Math.round (fmul amount 100)

/-- The argument of `stripe.paymentIntents.create` (services/stripe.js lines 5-11). -/
structure IntentParams where
  amount : Int
  currency : String
  automaticPaymentMethods : Bool
deriving DecidableEq

/-- The payment intent that the provider returns. -/
structure PaymentIntent where
  id : String
  client_secret : String
deriving DecidableEq

/-- The provider call `stripe.paymentIntents.create`; `none` when it throws. -/
abbrev Provider := IntentParams → Option PaymentIntent

/-- The function `createPaymentIntent(amount, currency)` (services/stripe.js
lines 3-17): the intent, `none` when the call throws, and the arguments of the
provider calls made. -/
def createPaymentIntent (provider : Provider) (amount : ℚ) (currency : String) :
    Option PaymentIntent × List IntentParams :=
  let params : IntentParams :=
    { amount := Math.round (fmul amount 100), currency := currency,
      automaticPaymentMethods := true }
  (provider params, [params])

/-- The handler of `POST /api/payments/create-payment-intent` (payments.js lines
9-34): the response, the orders afterwards and the provider calls made.  The
`save()` runs the schema validators and the unique sparse index on
`paymentId`. -/
def createPaymentIntentRoute (provider : Provider) (orderId : Option Nat) (orders : List Order) :
    Response × List Order × List IntentParams :=
  match orderId.bind (Order.findById orders) with
  | none => ({ status := 404, body := Payload.message "Order not found" }, orders, [])
  | some order =>
    match createPaymentIntent provider order.totalAmount "usd" with
    | (none, calls) =>
      ({ status := 500, body := Payload.message "Error creating payment intent" }, orders, calls)
    | (some paymentIntent, calls) =>
      let order := { order with paymentId := some paymentIntent.id }
      match Order.validate order._id order.toDraft with
      | Except.error _ =>
        ({ status := 500, body := Payload.message "Error creating payment intent" }, orders, calls)
      | Except.ok saved =>
        if orders.any (fun o => o._id != saved._id && o.paymentId == saved.paymentId) then
          ({ status := 500, body := Payload.message "Error creating payment intent" },
           orders, calls)
        else
          ({ status := 200, body := Payload.intent paymentIntent.client_secret paymentIntent.id },
           updateFirst (fun o => o._id == saved._id) (fun _ => saved) orders, calls)

/-! ## routes/menu.js: POST /, PUT /:id, DELETE /:id -/

/-- The `enum` of `menuItemSchema.category` (models/MenuItem.js line 21). -/
def categoryEnum : List String := ["Breakfast", "Lunch", "Dinner", "Dessert", "Beverages"]

/-- The body of `POST /api/menu` and `PUT /api/menu/:id`; `price = none` is a
value that fails `isFloat`, the other options are absent keys. -/
structure MenuBody where
  name : String
  description : String
  price : Option ℚ
  category : String
  image : Option String
  vegetarian : Option Bool
  vegan : Option Bool
  glutenFree : Option Bool
  spicyLevel : Option ℚ
  available : Option Bool
  popular : Option Bool
deriving DecidableEq

/-- The express-validator chain of menu.js lines 99-104 and 144-149. -/
def validateMenuBody (b : MenuBody) : List String :=
  (if jsTrim b.name = "" then ["Name is required"] else []) ++
  (if jsTrim b.description = "" then ["Description is required"] else []) ++
  (match b.price with
   | some p => if 0 ≤ p then [] else ["Price must be a positive number"]
   | none => ["Price must be a positive number"]) ++
  (if jsTrim b.category = "" then ["Category is required"] else [])

/-- The document that the literals of menu.js lines 117-131 and 164-178
describe, for the id and the image. -/
def menuItemOf (id : Nat) (image : String) (b : MenuBody) : MenuItem :=
  { _id := id, name := jsTrim b.name, price := b.price.getD 0, category := jsTrim b.category,
    available := b.available != some false, description := jsTrim b.description,
    image := image, vegetarian := b.vegetarian.getD false, vegan := b.vegan.getD false,
    glutenFree := b.glutenFree.getD false, spicyLevel := b.spicyLevel.getD 0,
    popular := b.popular.getD false }

/-- Schema validation run by `save()` on a menu item. -/
def MenuItem.validate (m : MenuItem) : Except Thrown MenuItem :=
  if m.name = "" then Except.error (Thrown.validationError "name")
  else if m.description = "" then Except.error (Thrown.validationError "description")
  else if m.price < 0 then Except.error (Thrown.validationError "price")
  else if m.category ∉ categoryEnum then Except.error (Thrown.validationError "category")
  else if m.image = "" then Except.error (Thrown.validationError "image")
  else if m.spicyLevel < 0 ∨ 3 < m.spicyLevel then
    Except.error (Thrown.validationError "spicyLevel")
  else Except.ok m

/-- The handler of `POST /api/menu` (menu.js lines 105-138). -/
def createMenuItem (user : User) (b : MenuBody) (menu : List MenuItem) :
    Response × List MenuItem :=
  if user.role ≠ "admin" then
    ({ status := 403, body := Payload.message "Not authorized" }, menu)
  else
    let errors := validateMenuBody b
    if errors ≠ [] then ({ status := 400, body := Payload.errors errors }, menu)
    else
      let menuItem := menuItemOf (freshIdOf (menu.map (fun m => m._id))) (b.image.getD "") b
      match MenuItem.validate menuItem with
      | Except.error _ =>
        ({ status := 500, body := Payload.message "Error creating menu item" }, menu)
      | Except.ok saved => ({ status := 201, body := Payload.menuItem saved }, menu ++ [saved])

/-- The handler of `PUT /api/menu/:id` (menu.js lines 150-190); the update runs
no validator and leaves `image` as it is when the body has none. -/
def updateMenuItem (user : User) (id : Nat) (b : MenuBody) (menu : List MenuItem) :
    Response × List MenuItem :=
  if user.role ≠ "admin" then
    ({ status := 403, body := Payload.message "Not authorized" }, menu)
  else
    let errors := validateMenuBody b
    if errors ≠ [] then ({ status := 400, body := Payload.errors errors }, menu)
    else
      match menu.find? (fun m => m._id == id) with
      | none => ({ status := 404, body := Payload.message "Menu item not found" }, menu)
      | some old =>
        ({ status := 200, body := Payload.menuItem (menuItemOf old._id (b.image.getD old.image) b) },
         updateFirst (fun m => m._id == id)
           (fun m => menuItemOf m._id (b.image.getD m.image) b) menu)

/-- The handler of `DELETE /api/menu/:id` (menu.js lines 194-210). -/
def deleteMenuItem (user : User) (id : Nat) (menu : List MenuItem) : Response × List MenuItem :=
  if user.role ≠ "admin" then
    ({ status := 403, body := Payload.message "Not authorized" }, menu)
  else
    match menu.find? (fun m => m._id == id) with
    | none => ({ status := 404, body := Payload.message "Menu item not found" }, menu)
    | some _ =>
      ({ status := 200, body := Payload.message "Menu item deleted successfully" },
       menu.eraseP (fun m => m._id == id))

/-! ## routes/orders.js and routes/reservations.js: GET /:id -/

/-- The handler of `GET /api/orders/:id` (orders.js lines 23-38). -/
def getOrder (user : User) (id : Nat) (orders : List Order) : Response :=
  match orders.find? (fun o => o._id == id && o.user == user._id) with
  | none => { status := 404, body := Payload.message "Order not found" }
  | some order => { status := 200, body := Payload.order order }

/-- The handler of `GET /api/reservations/:id` (reservations.js lines 21-36). -/
def getReservation (user : User) (id : Nat) (rs : List Reservation) : Response :=
  match rs.find? (ownQuery user id) with
  | none => { status := 404, body := Payload.message "Reservation not found" }
  | some reservation => { status := 200, body := Payload.reservation reservation }

/-! ## utils/payment.js: validateRefundAmount -/

/-- The function `validateRefundAmount` (utils/payment.js lines 32-40);
`Except.error` carries the message of the thrown `Error`. -/
def validateRefundAmount (refundAmount originalAmount : ℚ) : Except String Bool :=
  if refundAmount ≤ 0 then Except.error "Refund amount must be greater than 0"
  else if refundAmount > originalAmount then
    Except.error "Refund amount cannot exceed original payment amount"
  else Except.ok true

/-! ## The database and routes/admin.js: GET /dashboard -/

/-- The collections of the database. -/
structure Db where
  menu : List MenuItem
  orders : List Order
  reservations : List Reservation
  reviews : List Review
  users : List User

/-- The handler of `PUT /api/menu/:id` on the database: it calls the `MenuItem`
model only. -/
def Db.putMenuItem (user : User) (id : Nat) (b : MenuBody) (db : Db) : Response × Db :=
  ((updateMenuItem user id b db.menu).1, { db with menu := (updateMenuItem user id b db.menu).2 })

/-- The number of milliseconds of a day. -/
def dayMs : Int := 86400000

/-- The calendar day (UTC) of an instant, the value that `$dateToString` with
the format `%Y-%m-%d` renders; days are numbered from the epoch, and the order
of the rendered strings is the order of the day numbers. -/
def dayOf (t : Int) : Int := t / dayMs

/-- The instant `new Date(new Date().setDate(new Date().getDate() - 30))`
(admin.js line 36): thirty days of 24 hours before `now`, which is the value
for a server whose time zone has no clock change in these thirty days. -/
def revenueCutoff (now : Int) : Int := now - 30 * dayMs

/-- The `$match` stage of admin.js lines 33-39. -/
def revenueMatch (now : Int) (orders : List Order) : List Order :=
  orders.filter (fun o => decide (revenueCutoff now ≤ o.createdAt))

/-- The `$group` stage of admin.js lines 40-45: one document for each distinct
day, with the sum of `totalAmount` over the input documents of that day. -/
def revenueGroup (os : List Order) : List (Int × ℚ) :=
  ((os.map (fun o => dayOf o.createdAt)).dedup).map
    (fun d => (d, ((os.filter (fun o => dayOf o.createdAt == d)).map
      (fun o => o.totalAmount)).sum))

/-- The `$sort` stage of admin.js lines 46-48: ascending `_id`. -/
def revenueSort (gs : List (Int × ℚ)) : List (Int × ℚ) :=
  gs.insertionSort (fun a b => a.1 ≤ b.1)

/-- The aggregation pipeline of admin.js lines 32-49. -/
def dailyRevenue (now : Int) (orders : List Order) : List (Int × ℚ) :=
  revenueSort (revenueGroup (revenueMatch now orders))

/-- The handler of `GET /api/admin/dashboard` (admin.js lines 15-67) at the
instant `now`, reached after `adminAuth`: the response and the database
afterwards. -/
def dashboard (now : Int) (db : Db) : Response × Db :=
  ({ status := 200,
     body := Payload.dashboard db.orders.length db.reservations.length
       (db.menu.filter (fun m => m.available)).length db.users.length
       ((db.orders.insertionSort (fun a b => b.createdAt ≤ a.createdAt)).take 5)
       ((db.reservations.insertionSort (fun a b => b.date ≤ a.date)).take 5)
       (dailyRevenue now db.orders) },
   db)

/-- Spec-side sum: `totalAmount` over the orders created on the day. -/
def daySum (orders : List Order) (day : Int) : ℚ :=
  ((orders.filter (fun o => decide (dayOf o.createdAt = day))).map (fun o => o.totalAmount)).sum

/-- Spec-side sum: `totalAmount` over the orders created on the day at or after
the cutoff instant. -/
def windowDaySum (now : Int) (orders : List Order) (day : Int) : ℚ :=
  ((orders.filter (fun o =>
      decide (revenueCutoff now ≤ o.createdAt ∧ dayOf o.createdAt = day))).map
    (fun o => o.totalAmount)).sum

/-! ## Sample data -/

/-- An authenticated customer. -/
def alice : User := { _id := 1, email := "alice@example.com", role := "user" }

/-- An authenticated administrator. -/
def root : User := { _id := 9, email := "admin@example.com", role := "admin" }

/-- Menu of the example scenario: item 1 costs 10.00, item 2 costs 5.00, item 3
is not available. -/
def sampleMenu : List MenuItem :=
  [{ _id := 1, name := "itemA", price := 10, category := "Lunch", available := true,
     description := "first dish", image := "a.jpg" },
   { _id := 2, name := "itemB", price := 5, category := "Lunch", available := true,
     description := "second dish", image := "b.jpg" },
   { _id := 3, name := "itemC", price := 7, category := "Dinner", available := false,
     description := "third dish", image := "c.jpg" }]

/-- The submission of the example scenario: 2 of item 1, 1 of item 2, delivery. -/
def sampleBody : OrderBody :=
  { items := some [{ menuItem := some 1, quantity := 2 }, { menuItem := some 2, quantity := 1 }],
    orderType := "delivery", deliveryAddress := none, specialInstructions := none,
    status := none, paymentStatus := none }

/-- A stored order of `alice` with the given id, status and payment id. -/
def sampleOrder (id : Nat) (status : String) (paymentId : Option String) : Order :=
  { _id := id, user := 1, items := [{ menuItem := 1, quantity := 2, price := 10 }],
    totalAmount := 20, status := status, orderType := "pickup", deliveryAddress := none,
    paymentStatus := "pending", paymentId := paymentId, paymentMethod := "card",
    createdAt := 0 }

/-- A Stripe library whose verification accepts the signature "good" and reads
the body as the intent id of an event of the given type. -/
def sampleStripe (type : String) : StripeLib :=
  { constructEvent := fun payload sig =>
      if sig = some "good" then some { type := type, objectId := payload } else none }

/-- Spec-side predicate: the line names, by an id that is an ObjectId, a menu
item that does not exist or that has `available = false`. -/
def lineUnavailable (menu : List MenuItem) (l : OrderLineReq) : Bool :=
  match MenuItem.findById menu l.menuItem with
  | Except.ok none => true
  | Except.ok (some m) => !m.available
  | Except.error _ => false

/-- Spec-side predicate: the id of the line is a value that is no ObjectId. -/
def lineMalformed (l : OrderLineReq) : Bool :=
  match l.menuItem with
  | some (IdArg.malformed _) => true
  | _ => false

/-- Spec-side sum: menu item price × quantity over the submitted lines. -/
def lineSum (menu : List MenuItem) (ls : List OrderLineReq) : ℚ :=
  (ls.map (fun l =>
    match MenuItem.findById menu l.menuItem with
    | Except.ok (some m) => m.price * l.quantity
    | _ => 0)).sum

/-- A pickup submission whose first line carries the id 'abc', which is no
ObjectId, and whose second line names the unavailable item 3. -/
def malformedIdBody : OrderBody :=
  { items := some [{ menuItem := some (IdArg.malformed "abc"), quantity := 1 },
                   { menuItem := some 3, quantity := 1 }],
    orderType := "pickup", deliveryAddress := none, specialInstructions := none,
    status := none, paymentStatus := none }

/-- A submission whose only line names the unavailable item 3 with quantity 0. -/
def zeroQuantityBody : OrderBody :=
  { items := some [{ menuItem := some 3, quantity := 0 }],
    orderType := "pickup", deliveryAddress := none, specialInstructions := none,
    status := none, paymentStatus := none }

/-- A delivery submission whose third and last line names the unavailable item 3. -/
def lastLineBody : OrderBody :=
  { items := some [{ menuItem := some 1, quantity := 2 },
                   { menuItem := some 2, quantity := 1 },
                   { menuItem := some 3, quantity := 1 }],
    orderType := "delivery", deliveryAddress := none, specialInstructions := none,
    status := none, paymentStatus := none }

/-- A one-line pickup submission whose body also carries `status` and
`paymentStatus` keys. -/
def statusBody : OrderBody :=
  { items := some [{ menuItem := some 1, quantity := 1 }],
    orderType := "pickup", deliveryAddress := none, specialInstructions := none,
    status := some "delivered", paymentStatus := some "completed" }

/-- The status of the order stored at position `i` of the collection. -/
def statusAt (orders : List Order) (i : Nat) : Option String :=
  match orders[i]? with
  | some o => some o.status
  | none => none

/-- A webhook request carrying the intent id "pi_1" with a signature that the
sample library accepts. -/
def signedReq : WebhookReq := { body := "pi_1", signature := some "good" }

/-- A webhook request whose signature the sample library rejects. -/
def forgedReq : WebhookReq := { body := "pi_1", signature := some "bad" }

/-- A module scope that also binds `stripe`. -/
def scopeWithStripe : List String := "stripe" :: paymentsModuleScope

/-- A reservation of user 2 for the slot (100, "19:00") with the given id and
status. -/
def sampleReservation (id : Nat) (status : String) : Reservation :=
  { _id := id, user := 2, date := 100, time := "19:00", partySize := 2,
    specialRequests := none, status := status }

/-- Twenty confirmed reservations, ids 1 to 20, in the slot (100, "19:00"). -/
def fullSlot : List Reservation :=
  (List.range 20).map (fun i => sampleReservation (i + 1) "confirmed")

/-- A valid reservation request for the slot (100, "19:00"). -/
def sampleReservationBody : ReservationBody :=
  { date := DateArg.instant 100, time := "19:00", partySize := 4, specialRequests := none }

/-- A request for 19:00 whose date is the week date '2024-W03-2': the string
passes `isISO8601()`, and `new Date` makes an Invalid Date of it. -/
def weekDateBody : ReservationBody :=
  { date := DateArg.unparsable, time := "19:00", partySize := 4, specialRequests := none }

/-- The authenticated customer who owns the sample reservations. -/
def bob : User := { _id := 2, email := "bob@example.com", role := "user" }

/-- Two reservations of `bob` in the slot (100, "19:00"). -/
def bobStore : List Reservation :=
  [sampleReservation 1 "confirmed", sampleReservation 2 "pending"]

/-- The slot (100, "19:00") with 20 confirmed reservations and the cancelled
reservation 21. -/
def fullSlotAndCancelled : List Reservation := fullSlot ++ [sampleReservation 21 "cancelled"]

/-- A review submission for order 1 with a rating of 5. -/
def sampleReviewBody (orderId : Nat) : ReviewBody :=
  { orderId := some orderId, rating := 5, comment := "Great food and service",
    images := none }

/-- The review that a submission of `alice` at time 7 stores under the id. -/
def storedReview (id : Nat) : Review :=
  { _id := id, user := 1, rating := 5, comment := "Great food and service", images := [],
    verified := false, createdAt := 7, order := none, status := none }

/-- A provider that answers every call with the intent `pi_9`. -/
def sampleProvider : Provider :=
  fun _ => some { id := "pi_9", client_secret := "secret_9" }

/-- A menu body that fails every check of the validator chain. -/
def invalidMenuBody : MenuBody :=
  { name := "", description := " ", price := none, category := "", image := none,
    vegetarian := none, vegan := none, glutenFree := none, spicyLevel := none,
    available := none, popular := none }

/-- A store in which reservation 21 of `bob` sits in the slot (200, "19:00")
while the slot (100, "19:00") holds 20 confirmed reservations. -/
def fullSlotAndOther : List Reservation :=
  fullSlot ++ [{ sampleReservation 21 "confirmed" with date := 200 }]

/-- A pickup submission with an empty `items` array. -/
def emptyPickupBody : OrderBody :=
  { items := some [], orderType := "pickup", deliveryAddress := none,
    specialInstructions := none, status := none, paymentStatus := none }

/-- A delivery submission with an empty `items` array. -/
def emptyDeliveryBody : OrderBody :=
  { items := some [], orderType := "delivery", deliveryAddress := none,
    specialInstructions := none, status := none, paymentStatus := none }

/-- A reservation request whose time fails the validator. -/
def badTimeBody : ReservationBody :=
  { date := DateArg.instant 100, time := "25:00", partySize := 4, specialRequests := none }

/-- Spec-side predicate: the character is one of the digits 0 to 9. -/
def isDigitChar (c : Char) : Prop := 48 ≤ c.toNat ∧ c.toNat ≤ 57

/-- The value of a digit character. -/
def digitValue (c : Char) : Nat := c.toNat - 48

/-- Spec-side predicate: the string is an hour written as one digit or as two
digits of value 00 to 23, a colon, and a minute written as two digits of value
00 to 59, with nothing before or after. -/
def timeSpec (s : String) : Prop :=
  ∃ (hour : List Char) (m1 m2 : Char),
    s.data = hour ++ [':', m1, m2] ∧
    ((∃ h, hour = [h] ∧ isDigitChar h) ∨
     (∃ h1 h2, hour = [h1, h2] ∧ isDigitChar h1 ∧ isDigitChar h2 ∧
        digitValue h1 * 10 + digitValue h2 ≤ 23)) ∧
    isDigitChar m1 ∧ isDigitChar m2 ∧ digitValue m1 * 10 + digitValue m2 ≤ 59

/-- An order of `alice` created at an instant, with a total. -/
def orderAt (id : Nat) (createdAt : Int) (totalAmount : ℚ) : Order :=
  { sampleOrder id "delivered" none with createdAt := createdAt, totalAmount := totalAmount }

/-- The instant of day 40 at noon; the cutoff of the revenue series is then day
10 at noon. -/
def noonOfDay40 : Int := 40 * dayMs + dayMs / 2

/-- Two orders of day 10: one at 08:00 with total 10, one at 18:00 with total
20. -/
def boundaryOrders : List Order :=
  [orderAt 1 (10 * dayMs + 8 * 3600000) 10, orderAt 2 (10 * dayMs + 18 * 3600000) 20]

/-- A database with the sample menu and the two orders of day 10. -/
def sampleDb : Db :=
  { menu := sampleMenu, orders := boundaryOrders, reservations := bobStore, reviews := [],
    users := [alice, bob, root] }

/-- A menu body that sets the price 12. -/
def priceChangeBody : MenuBody :=
  { name := "itemA", description := "first dish", price := some 12, category := "Lunch",
    image := none, vegetarian := none, vegan := none, glutenFree := none, spicyLevel := none,
    available := none, popular := none }

/-- The double that the literal 1.115 denotes. -/
def double1115 : ℚ := 5021513584518103 / 4503599627370496

/-- The double that the literal 19.99 denotes. -/
def double1999 : ℚ := 5626684784446013 / 281474976710656

/-! ## Theorems: order intake -/

/-- The document built at orders.js lines 82-90 has no `totalAmount`: the
literal stores the sum under the key `total`, which is not a schema path. -/
theorem Order.new_orderInit_totalAmount (now : Int) (user : User) (b : OrderBody)
    (items : List OrderItem) (total : ℚ) :
    (Order.new now (orderInit user b items total)).totalAmount = none := by
  rfl

/-- The document built at orders.js lines 82-90 has `status` and
`paymentStatus` equal to `pending`, whatever the request body holds. -/
theorem Order.new_orderInit_status (now : Int) (user : User) (b : OrderBody)
    (items : List OrderItem) (total : ℚ) :
    (Order.new now (orderInit user b items total)).status = "pending" ∧
    (Order.new now (orderInit user b items total)).paymentStatus = "pending" := by
  constructor <;> rfl

/-- The `save()` of the document built by `POST /` is rejected by the
`required` validator of `totalAmount`. -/
theorem Order.validate_new_orderInit (id : Nat) (now : Int) (user : User) (b : OrderBody)
    (items : List OrderItem) (total : ℚ) :
    Order.validate id (Order.new now (orderInit user b items total)) =
      Except.error (Thrown.validationError "totalAmount") := by
  have h1 : (Order.new now (orderInit user b items total)).user = some user._id := rfl
  have h2 := Order.new_orderInit_totalAmount now user b items total
  simp [Order.validate, h1, h2]

/-- The handler of `POST /api/orders` never writes to the collection. -/
theorem createOrder_never_persists (now : Int) (user : User) (b : OrderBody)
    (menu : List MenuItem) (orders : List Order) :
    (createOrder now user b menu orders).2 = orders := by
  unfold createOrder
  by_cases hv : validateOrderBody b = []
  · simp only [hv, ne_eq, not_true_eq_false, if_false]
    cases hl : orderLoop menu (b.items.getD []) 0 [] with
    | error r => rfl
    | ok res =>
      obtain ⟨total, validatedItems⟩ := res
      simp [Order.validate_new_orderInit]
  · simp [hv]

/-- The lookup throws exactly for an id that is no ObjectId. -/
theorem MenuItem.findById_error (menu : List MenuItem) (l : OrderLineReq) (e : Thrown)
    (h : MenuItem.findById menu l.menuItem = Except.error e) : lineMalformed l = true := by
  unfold MenuItem.findById at h
  unfold lineMalformed
  split at h
  · cases h
  · next heq => rw [heq]
  · cases h

/-- The loop returns the item-unavailable response of the first line that names
a missing or unavailable menu item, when no line before it carries an id that
is no ObjectId. -/
theorem orderLoop_unavailable (menu : List MenuItem) (l : OrderLineReq)
    (post : List OrderLineReq) (hu : lineUnavailable menu l = true) (pre : List OrderLineReq) :
    ∀ (total : ℚ) (acc : List OrderItem),
      (∀ x ∈ pre, lineMalformed x = false) →
      ∃ k ∈ pre ++ l :: post, lineUnavailable menu k = true ∧
        orderLoop menu (pre ++ l :: post) total acc = Except.error (itemUnavailable k.menuItem) := by
  induction pre with
  | nil =>
    intro total acc _
    refine ⟨l, by simp, hu, ?_⟩
    cases hf : MenuItem.findById menu l.menuItem with
    | error e => simp [lineUnavailable, hf] at hu
    | ok r =>
      cases r with
      | none => simp [orderLoop, hf]
      | some m =>
        have ha : m.available = false := by simpa [lineUnavailable, hf] using hu
        simp [orderLoop, hf, ha]
  | cons item rest ih =>
    intro total acc hm
    have hrest : ∀ x ∈ rest, lineMalformed x = false :=
      fun x hx => hm x (List.mem_cons_of_mem _ hx)
    cases hf : MenuItem.findById menu item.menuItem with
    | error e =>
      have h1 := MenuItem.findById_error menu item e hf
      have h2 := hm item (List.mem_cons_self _ _)
      rw [h1] at h2
      cases h2
    | ok r =>
      cases r with
      | none =>
        exact ⟨item, by simp, by simp [lineUnavailable, hf], by simp [orderLoop, hf]⟩
      | some m =>
        cases ha : m.available with
        | false =>
          exact ⟨item, by simp, by simp [lineUnavailable, hf, ha], by simp [orderLoop, hf, ha]⟩
        | true =>
          obtain ⟨k, hk, hku, he⟩ := ih (total + m.price * item.quantity)
            (acc ++ [{ menuItem := m._id, quantity := item.quantity, price := m.price }]) hrest
          exact ⟨k, List.mem_cons_of_mem _ hk, hku, by simp [orderLoop, hf, ha, he]⟩

/-- When every line resolves to an available menu item, the loop ends with the
running total raised by the sum of price × quantity over the lines. -/
theorem orderLoop_total (menu : List MenuItem) (ls : List OrderLineReq) :
    ∀ (total : ℚ) (acc : List OrderItem),
      (∀ l ∈ ls, lineUnavailable menu l = false) →
      (∀ l ∈ ls, lineMalformed l = false) →
      ∃ items, orderLoop menu ls total acc = Except.ok (total + lineSum menu ls, items) := by
  induction ls with
  | nil => intro total acc _ _; exact ⟨acc, by simp [orderLoop, lineSum]⟩
  | cons item rest ih =>
    intro total acc h hm
    have hitem := h item (List.mem_cons_self _ _)
    cases hf : MenuItem.findById menu item.menuItem with
    | error e =>
      have h1 := MenuItem.findById_error menu item e hf
      have h2 := hm item (List.mem_cons_self _ _)
      rw [h1] at h2
      cases h2
    | ok r =>
      cases r with
      | none => simp [lineUnavailable, hf] at hitem
      | some m =>
        have ha : m.available = true := by simpa [lineUnavailable, hf] using hitem
        obtain ⟨items, hi⟩ := ih (total + m.price * item.quantity)
          (acc ++ [{ menuItem := m._id, quantity := item.quantity, price := m.price }])
          (fun l hl => h l (List.mem_cons_of_mem _ hl))
          (fun l hl => hm l (List.mem_cons_of_mem _ hl))
        refine ⟨items, ?_⟩
        have hs : lineSum menu (item :: rest) = m.price * item.quantity + lineSum menu rest := by
          simp [lineSum, hf]
        simp only [orderLoop, hf, ha, hs, hi]
        simp [add_assoc]

/-- C1, at the example scenario: the loop and the delivery fee compute
2 × 10.00 + 1 × 5.00 + 5 = 30, but the sum is passed to the constructor under
the key `total`; the document has no `totalAmount`, `save()` rejects it, the
handler responds 500 and no Order is persisted. -/
theorem createOrder_example_not_persisted :
    orderLoop sampleMenu (sampleBody.items.getD []) 0 [] =
      Except.ok (25, [{ menuItem := 1, quantity := 2, price := 10 },
                      { menuItem := 2, quantity := 1, price := 5 }]) ∧
    addDeliveryFee sampleBody.orderType 25 = 30 ∧
    createOrder 0 alice sampleBody sampleMenu [] =
      ({ status := 500, body := Payload.message "Error creating order" }, []) := by
  refine ⟨?_, ?_, ?_⟩
  · simp [orderLoop, sampleMenu, sampleBody, MenuItem.findById]
    norm_num
  · simp [addDeliveryFee, sampleBody]
    norm_num
  · decide

/-- C2, as stated, fails: a submission whose only line names the unavailable
item 3 with quantity 0 is answered with the validation errors, not with the
item-unavailable response; and a submission that passes request validation,
whose first line carries the id 'abc' and whose second line names the
unavailable item 3, is answered 500: `findById` throws a CastError on the
first line. -/
theorem createOrder_unavailable_other_answer :
    (∃ l ∈ zeroQuantityBody.items.getD [], lineUnavailable sampleMenu l = true) ∧
    createOrder 0 alice zeroQuantityBody sampleMenu [] =
      ({ status := 400, body := Payload.errors ["Quantity must be at least 1"] }, []) ∧
    (createOrder 0 alice zeroQuantityBody sampleMenu []).1 ≠ itemUnavailable (some 3) ∧
    validateOrderBody malformedIdBody = [] ∧
    (∃ l ∈ malformedIdBody.items.getD [], lineUnavailable sampleMenu l = true) ∧
    MenuItem.findById sampleMenu (some (IdArg.malformed "abc")) =
      Except.error (Thrown.castError "_id") ∧
    createOrder 0 alice malformedIdBody sampleMenu [] =
      ({ status := 500, body := Payload.message "Error creating order" }, []) := by
  refine ⟨⟨{ menuItem := some 3, quantity := 0 }, by decide, by decide⟩, by decide, by decide,
    by decide, ⟨{ menuItem := some 3, quantity := 1 }, by decide, by decide⟩, rfl, by decide⟩

/-- C2, amended: for every authenticated submission that passes request
validation and in which some line names, by an id that is an ObjectId, a menu
item that does not exist or has `available = false`, while no line before it
carries an id that is no ObjectId, the handler answers with the
item-unavailable response (HTTP 400) for such a line and leaves the Order
collection unchanged, whatever the position of the line. -/
theorem createOrder_unavailable_rejected (now : Int) (user : User) (b : OrderBody)
    (menu : List MenuItem) (orders : List Order) (pre : List OrderLineReq) (l : OrderLineReq)
    (post : List OrderLineReq) (hv : validateOrderBody b = [])
    (hi : b.items.getD [] = pre ++ l :: post)
    (hu : lineUnavailable menu l = true) (hm : ∀ x ∈ pre, lineMalformed x = false) :
    ∃ k ∈ b.items.getD [], lineUnavailable menu k = true ∧
      (itemUnavailable k.menuItem).status = 400 ∧
      createOrder now user b menu orders = (itemUnavailable k.menuItem, orders) := by
  obtain ⟨k, hk, hku, he⟩ := orderLoop_unavailable menu l post hu pre 0 [] hm
  rw [← hi] at hk he
  refine ⟨k, hk, hku, rfl, ?_⟩
  unfold createOrder
  simp [hv, he]

/-- Witness for C2 as amended: the unavailable item 3 as the last of three
lines, after two available ones. -/
theorem createOrder_unavailable_rejected_witness :
    ∃ k ∈ lastLineBody.items.getD [],
      lineUnavailable sampleMenu k = true ∧
      (itemUnavailable k.menuItem).status = 400 ∧
      createOrder 0 alice lastLineBody sampleMenu [sampleOrder 1 "pending" none] =
        (itemUnavailable k.menuItem, [sampleOrder 1 "pending" none]) :=
  createOrder_unavailable_rejected 0 alice lastLineBody sampleMenu [sampleOrder 1 "pending" none]
    [{ menuItem := some 1, quantity := 2 }, { menuItem := some 2, quantity := 1 }]
    { menuItem := some 3, quantity := 1 } [] (by decide) rfl (by decide) (by decide)

/-- C10, at a submission whose body carries `status` and `paymentStatus`: the
document built for it has `status = pending` and `paymentStatus = pending`, but
it is never persisted: `save()` rejects it and the handler responds 500. -/
theorem createOrder_statusBody_not_persisted :
    validateOrderBody statusBody = [] ∧
    (Order.new 0 (orderInit alice statusBody
        [{ menuItem := 1, quantity := 1, price := 10 }] 10)).status = "pending" ∧
    (Order.new 0 (orderInit alice statusBody
        [{ menuItem := 1, quantity := 1, price := 10 }] 10)).paymentStatus = "pending" ∧
    createOrder 0 alice statusBody sampleMenu [] =
      ({ status := 500, body := Payload.message "Error creating order" }, []) := by
  refine ⟨by decide, rfl, rfl, by decide⟩

/-! ## Theorems: collection updates -/

/-- A position of `updateFirst p f l` holds the old document or its image. -/
theorem updateFirst_getElem? {α : Type} (p : α → Bool) (f : α → α) (l : List α) :
    ∀ (i : Nat) (o' : α), (updateFirst p f l)[i]? = some o' →
      ∃ o, l[i]? = some o ∧ (o' = o ∨ (p o = true ∧ o' = f o)) := by
  induction l with
  | nil => intro i o' h; simp [updateFirst] at h
  | cons a as ih =>
    intro i o' h
    by_cases hp : p a = true
    · simp only [updateFirst, hp, if_true] at h
      cases i with
      | zero =>
        simp only [List.getElem?_cons_zero, Option.some.injEq] at h
        exact ⟨a, by simp, Or.inr ⟨hp, h.symm⟩⟩
      | succ j =>
        simp only [List.getElem?_cons_succ] at h
        exact ⟨o', by simpa using h, Or.inl rfl⟩
    · have hu : updateFirst p f (a :: as) = a :: updateFirst p f as := by
        simp [updateFirst, hp]
      rw [hu] at h
      cases i with
      | zero =>
        simp only [List.getElem?_cons_zero, Option.some.injEq] at h
        exact ⟨a, by simp, Or.inl h.symm⟩
      | succ j =>
        simp only [List.getElem?_cons_succ] at h
        obtain ⟨o, ho, hc⟩ := ih j o' h
        exact ⟨o, by simpa using ho, hc⟩

/-- A document that does not satisfy the query keeps its position and value. -/
theorem updateFirst_getElem?_of_not {α : Type} (p : α → Bool) (f : α → α) (l : List α) :
    ∀ (i : Nat) (o : α), l[i]? = some o → p o = false →
      (updateFirst p f l)[i]? = some o := by
  induction l with
  | nil => intro i o h; simp at h
  | cons a as ih =>
    intro i o h hp
    cases i with
    | zero =>
      simp only [List.getElem?_cons_zero, Option.some.injEq] at h
      subst h
      simp [updateFirst, hp]
    | succ j =>
      simp only [List.getElem?_cons_succ] at h
      by_cases hpa : p a = true
      · simp [updateFirst, hpa, h]
      · simp [updateFirst, hpa, ih j o h hp]

/-- `updateFirst` keeps the length of the collection. -/
theorem updateFirst_length {α : Type} (p : α → Bool) (f : α → α) (l : List α) :
    (updateFirst p f l).length = l.length := by
  induction l with
  | nil => rfl
  | cons a as ih => by_cases hp : p a = true <;> simp [updateFirst, hp, ih]

/-- A member of `updateFirst p f l` is an old member or the image of one. -/
theorem mem_updateFirst {α : Type} (p : α → Bool) (f : α → α) (l : List α) (o' : α)
    (h : o' ∈ updateFirst p f l) : o' ∈ l ∨ ∃ o ∈ l, p o = true ∧ o' = f o := by
  obtain ⟨i, hi⟩ := List.getElem?_of_mem h
  obtain ⟨o, ho, hc⟩ := updateFirst_getElem? p f l i o' hi
  have hmem : o ∈ l := List.getElem?_mem ho
  rcases hc with rfl | ⟨hp, rfl⟩
  · exact Or.inl hmem
  · exact Or.inr ⟨o, hmem, hp, rfl⟩

/-- A set-style update applied twice equals the update applied once. -/
theorem updateFirst_idem {α : Type} (p : α → Bool) (f : α → α)
    (hp : ∀ o, p o = true → p (f o) = true) (hf : ∀ o, f (f o) = f o) (l : List α) :
    updateFirst p f (updateFirst p f l) = updateFirst p f l := by
  induction l with
  | nil => rfl
  | cons a as ih =>
    by_cases hpa : p a = true
    · simp [updateFirst, hpa, hp a hpa, hf]
    · simp [updateFirst, hpa, ih]

/-- A document accepted by `save()` keeps the draft's status, which the `enum`
validator has checked. -/
theorem Order.validate_ok (id : Nat) (d : OrderDraft) (s : Order)
    (h : Order.validate id d = Except.ok s) :
    s.status = d.status ∧ d.status ∈ orderStatusEnum := by
  unfold Order.validate at h
  split at h
  · cases h
  · cases h
  · cases h
  · split_ifs at h with h1 h2 h3 h4 h5
    cases h
    exact ⟨rfl, h2⟩

/-! ## Theorems: payment webhook -/

/-- The `switch` of the webhook handler is set-based: applying one event twice
gives the collection that applying it once gives. -/
theorem handleEvent_idem (event : Event) (orders : List Order) :
    handleEvent event (handleEvent event orders) = handleEvent event orders := by
  unfold handleEvent
  split_ifs
  · apply updateFirst_idem
    · intro o h; exact h
    · intro o; rfl
  · apply updateFirst_idem
    · intro o h; exact h
    · intro o; rfl
  · rfl

/-- An event of any other type leaves the collection as it is. -/
theorem handleEvent_other (event : Event) (orders : List Order)
    (h1 : event.type ≠ "payment_intent.succeeded")
    (h2 : event.type ≠ "payment_intent.payment_failed") :
    handleEvent event orders = orders := by
  simp [handleEvent, h1, h2]

/-- In a module scope that binds `stripe`, a request that the library verifies
is acknowledged and its event applied. -/
theorem webhookIn_verified (scope : List String) (lib : StripeLib) (req : WebhookReq)
    (orders : List Order) (event : Event) (hs : "stripe" ∈ scope)
    (hv : lib.constructEvent req.body req.signature = some event) :
    webhookIn scope lib req orders =
      ({ status := 200, body := Payload.received true }, handleEvent event orders) := by
  simp [webhookIn, constructEventCall, evalStripe, hs, hv]

/-- C3, at a correctly signed `payment_intent.succeeded` event for the
`paymentId` of a pending order: the library verifies the event, but the handler
of routes/payments.js evaluates the undeclared identifier `stripe`, responds 400
and leaves the order with `status = pending`, `paymentStatus = pending`. -/
theorem webhook_succeeded_not_applied :
    (sampleStripe "payment_intent.succeeded").constructEvent signedReq.body signedReq.signature =
      some { type := "payment_intent.succeeded", objectId := "pi_1" } ∧
    webhook (sampleStripe "payment_intent.succeeded") signedReq
        [sampleOrder 1 "pending" (some "pi_1")] =
      ({ status := 400, body := Payload.text "Webhook Error: stripe is not defined" },
       [sampleOrder 1 "pending" (some "pi_1")]) ∧
    statusAt (webhook (sampleStripe "payment_intent.succeeded") signedReq
        [sampleOrder 1 "pending" (some "pi_1")]).2 0 = some "pending" := by
  refine ⟨by decide, by decide, by decide⟩

/-- C4: for every webhook request whose signature verification fails, the
handler responds 400 and the Order collection is unchanged; this holds for the
handler of routes/payments.js and in every module scope, whether or not it
binds `stripe`. -/
theorem webhook_invalid_signature_rejected (scope : List String) (lib : StripeLib)
    (req : WebhookReq) (orders : List Order)
    (h : lib.constructEvent req.body req.signature = none) :
    ((webhook lib req orders).1.status = 400 ∧ (webhook lib req orders).2 = orders) ∧
    ((webhookIn scope lib req orders).1.status = 400 ∧
      (webhookIn scope lib req orders).2 = orders) := by
  have key : ∀ sc : List String, (webhookIn sc lib req orders).1.status = 400 ∧
      (webhookIn sc lib req orders).2 = orders := by
    intro sc
    by_cases hs : "stripe" ∈ sc <;> simp [webhookIn, constructEventCall, evalStripe, hs, h]
  exact ⟨key paymentsModuleScope, key scope⟩

/-- Witness for C4: a forged signature, in the scope of routes/payments.js and
in a scope that binds `stripe`. -/
theorem webhook_invalid_signature_rejected_witness :
    ((webhook (sampleStripe "payment_intent.succeeded") forgedReq
        [sampleOrder 1 "pending" (some "pi_1")]).1.status = 400 ∧
      (webhook (sampleStripe "payment_intent.succeeded") forgedReq
        [sampleOrder 1 "pending" (some "pi_1")]).2 = [sampleOrder 1 "pending" (some "pi_1")]) ∧
    ((webhookIn scopeWithStripe (sampleStripe "payment_intent.succeeded") forgedReq
        [sampleOrder 1 "pending" (some "pi_1")]).1.status = 400 ∧
      (webhookIn scopeWithStripe (sampleStripe "payment_intent.succeeded") forgedReq
        [sampleOrder 1 "pending" (some "pi_1")]).2 = [sampleOrder 1 "pending" (some "pi_1")]) :=
  webhook_invalid_signature_rejected scopeWithStripe (sampleStripe "payment_intent.succeeded")
    forgedReq [sampleOrder 1 "pending" (some "pi_1")] (by decide)

/-- C5, at a correctly signed `payment_intent.payment_failed` event for the
`paymentId` of a pending order: the handler responds 400 and the order keeps
`status = pending`, `paymentStatus = pending`. -/
theorem webhook_failed_not_applied :
    (sampleStripe "payment_intent.payment_failed").constructEvent signedReq.body
        signedReq.signature =
      some { type := "payment_intent.payment_failed", objectId := "pi_1" } ∧
    webhook (sampleStripe "payment_intent.payment_failed") signedReq
        [sampleOrder 1 "pending" (some "pi_1"), sampleOrder 2 "pending" (some "pi_2")] =
      ({ status := 400, body := Payload.text "Webhook Error: stripe is not defined" },
       [sampleOrder 1 "pending" (some "pi_1"), sampleOrder 2 "pending" (some "pi_2")]) := by
  refine ⟨by decide, by decide⟩

/-- C6, at a correctly signed event of type `charge.refunded`: the Order
collection is unchanged, but the handler responds 400 with an error text
instead of acknowledging the event with `received: true`. -/
theorem webhook_other_not_acknowledged :
    (sampleStripe "charge.refunded").constructEvent signedReq.body signedReq.signature =
      some { type := "charge.refunded", objectId := "pi_1" } ∧
    webhook (sampleStripe "charge.refunded") signedReq [sampleOrder 1 "pending" (some "pi_1")] =
      ({ status := 400, body := Payload.text "Webhook Error: stripe is not defined" },
       [sampleOrder 1 "pending" (some "pi_1")]) ∧
    (webhook (sampleStripe "charge.refunded") signedReq
        [sampleOrder 1 "pending" (some "pi_1")]).1 ≠
      { status := 200, body := Payload.received true } := by
  refine ⟨by decide, by decide, by decide⟩

/-! ## Theorems: order status -/

/-- The status read at a position after `updateFirst` is the old status or the
status of the rewritten document. -/
theorem statusAt_updateFirst (p : Order → Bool) (f : Order → Order) (l : List Order)
    (i : Nat) (s : String) (h : statusAt (updateFirst p f l) i = some s) :
    statusAt l i = some s ∨ ∃ o, l[i]? = some o ∧ p o = true ∧ s = (f o).status := by
  unfold statusAt at h
  cases hr : (updateFirst p f l)[i]? with
  | none => simp [hr] at h
  | some o' =>
    simp only [hr, Option.some.injEq] at h
    obtain ⟨o, ho, hc⟩ := updateFirst_getElem? p f l i o' hr
    rcases hc with rfl | ⟨hp, rfl⟩
    · left; simp [statusAt, ho, h]
    · right; exact ⟨o, ho, hp, h.symm⟩

/-- The collection after `DELETE /:id`: unchanged, or the first document matching
the query replaced by a document with `status = cancelled`. -/
theorem cancelOrder_store (user : User) (id : Nat) (orders : List Order) :
    (cancelOrder user id orders).2 = orders ∨
    ∃ saved, saved.status = "cancelled" ∧
      (cancelOrder user id orders).2 =
        updateFirst (cancelQuery user id) (fun _ => saved) orders := by
  unfold cancelOrder
  split
  · left; rfl
  · next order hfind =>
    dsimp only
    split
    · left; rfl
    · next saved hval =>
      right
      refine ⟨saved, (Order.validate_ok _ _ _ hval).1, ?_⟩
      split <;> rfl

/-- The collection after `PATCH /:id/status`: unchanged, or the first document
with the id replaced by a document whose status is the requested one, a value
that both the route validator and the schema `enum` accept. -/
theorem updateOrderStatus_store (user : User) (id : Nat) (status : String)
    (orders : List Order) :
    (updateOrderStatus user id status orders).2 = orders ∨
    ∃ saved, saved.status = status ∧ status ∈ patchStatusValues ∧ status ∈ orderStatusEnum ∧
      (updateOrderStatus user id status orders).2 =
        updateFirst (fun o => o._id == id) (fun _ => saved) orders := by
  unfold updateOrderStatus
  split_ifs with hrole hst
  · left; rfl
  · split
    · left; rfl
    · next order hfind =>
      dsimp only
      split
      · left; rfl
      · next saved hval =>
        right
        have hok := Order.validate_ok _ _ _ hval
        refine ⟨saved, hok.1, hst, hok.2, ?_⟩
        split <;> rfl
  · left; rfl

/-- C7, as stated, fails: the admin status update sets a cancelled order back
to `pending`, and the admin order update sets a delivered order to
`preparing`. -/
theorem terminal_status_changed_by_admin :
    (updateOrderStatus root 1 "pending" [sampleOrder 1 "cancelled" none]).2 =
      [sampleOrder 1 "pending" none] ∧
    (adminUpdateOrder 1 "preparing" [sampleOrder 1 "delivered" none]).2 =
      [sampleOrder 1 "preparing" none] := by
  refine ⟨by decide, by decide⟩

/-- The webhook handler of routes/payments.js leaves the Order collection as it
is: the call of `stripe.webhooks.constructEvent` throws before the `switch`. -/
theorem webhook_store (lib : StripeLib) (req : WebhookReq) (orders : List Order) :
    (webhook lib req orders).2 = orders := by
  have hs : "stripe" ∉ paymentsModuleScope := by decide
  simp [webhook, webhookIn, constructEventCall, evalStripe, hs]

/-- C7, amended: a customer cancel request and a payment webhook request each
leave every Order whose status is `delivered` or `cancelled` exactly as it was,
at its position in the collection; the webhook request leaves the whole
collection as it was. -/
theorem terminal_kept_by_cancel_and_webhook (user : User) (id : Nat) (lib : StripeLib)
    (req : WebhookReq) (orders : List Order)
    (i : Nat) (o : Order) (hi : orders[i]? = some o)
    (ht : o.status = "delivered" ∨ o.status = "cancelled") :
    (cancelOrder user id orders).2[i]? = some o ∧
    (webhook lib req orders).2[i]? = some o ∧
    (webhook lib req orders).2 = orders := by
  have hq : cancelQuery user id o = false := by
    rcases ht with h | h <;> simp [cancelQuery, h]
  refine ⟨?_, by rw [webhook_store]; exact hi, webhook_store lib req orders⟩
  rcases cancelOrder_store user id orders with h | ⟨saved, _, h⟩
  · rw [h]; exact hi
  · rw [h]; exact updateFirst_getElem?_of_not _ _ orders i o hi hq

/-- Witness for C7 as amended: a cancel request addressed to the caller's
delivered order 1, and a correctly signed `payment_intent.succeeded` event for
its payment id, leave it as it is. -/
theorem terminal_kept_by_cancel_and_webhook_witness :
    (cancelOrder alice 1
        [sampleOrder 1 "delivered" (some "pi_1"), sampleOrder 2 "pending" none]).2[0]? =
      some (sampleOrder 1 "delivered" (some "pi_1")) ∧
    (webhook (sampleStripe "payment_intent.succeeded") signedReq
        [sampleOrder 1 "delivered" (some "pi_1"), sampleOrder 2 "pending" none]).2[0]? =
      some (sampleOrder 1 "delivered" (some "pi_1")) ∧
    (webhook (sampleStripe "payment_intent.succeeded") signedReq
        [sampleOrder 1 "delivered" (some "pi_1"), sampleOrder 2 "pending" none]).2 =
      [sampleOrder 1 "delivered" (some "pi_1"), sampleOrder 2 "pending" none] :=
  terminal_kept_by_cancel_and_webhook alice 1 (sampleStripe "payment_intent.succeeded") signedReq
    [sampleOrder 1 "delivered" (some "pi_1"), sampleOrder 2 "pending" none]
    0 (sampleOrder 1 "delivered" (some "pi_1")) (by decide) (Or.inl (by decide))

/-- C8, as stated, fails: a customer cancel request changes the caller's pending
order to `cancelled`, the admin status update changes a pending order to
`cancelled`, and the admin order update changes a pending order to
`confirmed`; none of them is a webhook event. -/
theorem pending_left_without_webhook :
    (cancelOrder alice 1 [sampleOrder 1 "pending" none]).2 = [sampleOrder 1 "cancelled" none] ∧
    (updateOrderStatus root 1 "cancelled" [sampleOrder 1 "pending" none]).2 =
      [sampleOrder 1 "cancelled" none] ∧
    (adminUpdateOrder 1 "confirmed" [sampleOrder 1 "pending" none]).2 =
      [sampleOrder 1 "confirmed" none] := by
  refine ⟨by decide, by decide, by decide⟩

/-- C8, amended: no customer request (order submission, cancel) and no admin
status update through `PATCH /api/orders/:id/status` changes the status of a
pending Order to `confirmed`. -/
theorem pending_not_confirmed_by_customer_or_patch (now : Int) (user : User) (b : OrderBody)
    (menu : List MenuItem) (id : Nat) (status : String) (orders : List Order) (i : Nat)
    (hp : statusAt orders i = some "pending") :
    statusAt (createOrder now user b menu orders).2 i ≠ some "confirmed" ∧
    statusAt (cancelOrder user id orders).2 i ≠ some "confirmed" ∧
    statusAt (updateOrderStatus user id status orders).2 i ≠ some "confirmed" := by
  have h0 : statusAt orders i ≠ some "confirmed" := by rw [hp]; decide
  refine ⟨?_, ?_, ?_⟩
  · rw [createOrder_never_persists]; exact h0
  · rcases cancelOrder_store user id orders with h | ⟨saved, hs, h⟩
    · rw [h]; exact h0
    · rw [h]
      intro hc
      rcases statusAt_updateFirst _ _ orders i _ hc with h1 | ⟨o, _, _, h1⟩
      · exact h0 h1
      · rw [hs] at h1; revert h1; decide
  · rcases updateOrderStatus_store user id status orders with h | ⟨saved, hs, hpv, _, h⟩
    · rw [h]; exact h0
    · rw [h]
      intro hc
      rcases statusAt_updateFirst _ _ orders i _ hc with h1 | ⟨o, _, _, h1⟩
      · exact h0 h1
      · rw [hs] at h1
        rw [← h1] at hpv
        revert hpv; decide

/-- Witness for C8 as amended: a pending order 1, an order submission, a cancel
request for it and a status update to `ready`. -/
theorem pending_not_confirmed_by_customer_or_patch_witness :
    statusAt (createOrder 0 alice sampleBody sampleMenu [sampleOrder 1 "pending" none]).2 0 ≠
      some "confirmed" ∧
    statusAt (cancelOrder alice 1 [sampleOrder 1 "pending" none]).2 0 ≠ some "confirmed" ∧
    statusAt (updateOrderStatus alice 1 "ready" [sampleOrder 1 "pending" none]).2 0 ≠
      some "confirmed" :=
  pending_not_confirmed_by_customer_or_patch 0 alice sampleBody sampleMenu 1 "ready"
    [sampleOrder 1 "pending" none] 0 (by decide)

/-- The admin status update and the customer cancel keep every stored status
inside the schema `enum`. -/
theorem status_enum_kept_by_patch_and_cancel (user : User) (id : Nat) (status : String)
    (orders : List Order) (h : ∀ o ∈ orders, o.status ∈ orderStatusEnum) :
    (∀ o ∈ (updateOrderStatus user id status orders).2, o.status ∈ orderStatusEnum) ∧
    (∀ o ∈ (cancelOrder user id orders).2, o.status ∈ orderStatusEnum) := by
  constructor
  · rcases updateOrderStatus_store user id status orders with e | ⟨saved, hs, _, hen, e⟩
    · rw [e]; exact h
    · rw [e]
      intro o ho
      rcases mem_updateFirst _ _ orders o ho with hm | ⟨_, _, _, rfl⟩
      · exact h o hm
      · rw [hs]; exact hen
  · rcases cancelOrder_store user id orders with e | ⟨saved, hs, e⟩
    · rw [e]; exact h
    · rw [e]
      intro o ho
      rcases mem_updateFirst _ _ orders o ho with hm | ⟨_, _, _, rfl⟩
      · exact h o hm
      · rw [hs]; decide

/-- C9, at `PUT /api/admin/orders/1` with body status `foo`: the update runs no
validator, responds 200 and stores `foo`, which is not a member of the schema
`enum`. -/
theorem adminUpdateOrder_stores_any_status :
    adminUpdateOrder 1 "foo" [sampleOrder 1 "pending" none] =
      ({ status := 200, body := Payload.order (sampleOrder 1 "foo" none) },
       [sampleOrder 1 "foo" none]) ∧
    statusAt (adminUpdateOrder 1 "foo" [sampleOrder 1 "pending" none]).2 0 = some "foo" ∧
    "foo" ∉ orderStatusEnum := by
  refine ⟨by decide, by decide, by decide⟩

/-! ## Theorems: reservations -/

/-- The Mongo query of a slot is the spec-side slot predicate. -/
theorem slotQuery_eq (d : Int) (t : String) (r : Reservation) :
    slotQuery d t r = inSlot d t r := by
  by_cases h1 : r.date = d <;> by_cases h2 : r.time = t <;>
    by_cases h3 : r.status = "cancelled" <;> simp [slotQuery, inSlot, h1, h2, h3]

/-- The number of documents that the slot query returns is the slot count. -/
theorem filter_slotQuery_length (rs : List Reservation) (d : Int) (t : String) :
    (rs.filter (slotQuery d t)).length = slotCount rs d t := by
  unfold slotCount
  rw [List.countP_eq_length_filter]
  congr 2
  funext r
  exact slotQuery_eq d t r

/-- A reservation accepted by `save()` is written as it is, with a party size of
at least 1 and a status of the schema `enum`. -/
theorem Reservation.validate_ok_eq (r s : Reservation) (h : Reservation.validate r = Except.ok s) :
    s = r ∧ 1 ≤ r.partySize ∧ r.status ∈ reservationStatusEnum := by
  unfold Reservation.validate at h
  split_ifs at h with h1 h2
  cases h
  exact ⟨rfl, by omega, h2⟩

/-- A reservation with a party size of at least 1 and a status of the `enum`
passes the validation of `save()`. -/
theorem Reservation.validate_of_valid (r : Reservation) (h1 : 1 ≤ r.partySize)
    (h2 : r.status ∈ reservationStatusEnum) : Reservation.validate r = Except.ok r := by
  unfold Reservation.validate
  rw [if_neg (by omega), if_neg (not_not.mpr h2)]

/-- A body that passes the validator chain has a date that passes
`isISO8601()`, a matching time and a party size from 1 to 20. -/
theorem validateReservationBody_nil (b : ReservationBody) (h : validateReservationBody b = []) :
    b.date.isISO8601 = true ∧ matchesTime b.time = true ∧ 1 ≤ b.partySize ∧
      b.partySize ≤ 20 := by
  unfold validateReservationBody at h
  simp only [List.append_eq_nil] at h
  obtain ⟨⟨h1, h2⟩, h3⟩ := h
  refine ⟨?_, ?_, ?_⟩
  · cases hd : b.date with
    | invalid => simp [hd] at h1
    | unparsable => rfl
    | instant t => rfl
  · by_contra hm
    simp [hm] at h2
  · by_contra hp
    simp [hp] at h3

/-- C13: for a date that parses, the availability check answers 200 with
`available` true exactly when the number of reservations at that date and time
whose status is not `cancelled` is below 20, and with `remainingTables` equal to
20 minus that number. -/
theorem checkAvailability_spec (d : Int) (time : String) (rs : List Reservation) :
    checkAvailability (some d) time rs =
      { status := 200,
        body := Payload.availability (decide (slotCount rs d time < 20))
          (20 - (slotCount rs d time : Int)) } := by
  simp only [checkAvailability, filter_slotQuery_length]

/-- C11, as stated, fails: a request whose date is a week date passes request
validation (`isISO8601()` accepts it), the store is empty, so that every slot
holds fewer than 20 reservations, but `new Date` makes an Invalid Date of the
string, the cast of the query throws, the handler answers 500 and no
reservation is written. -/
theorem createReservation_unparsable_date :
    validateReservationBody weekDateBody = [] ∧
    weekDateBody.date.isISO8601 = true ∧ weekDateBody.date.toDate = none ∧
    (∀ (d : Int) (t : String), slotCount [] d t < 20) ∧
    createReservation alice weekDateBody [] =
      ({ status := 500, body := Payload.message "Error creating reservation" }, []) := by
  refine ⟨by decide, rfl, rfl, fun _ _ => by simp [slotCount], by decide⟩

/-- C11, amended: for every reservation request that passes validation and
whose date denotes an instant, creation answers 400 with the slot-full message
and writes nothing when the slot already holds 20 or more reservations that are
not cancelled; when it holds fewer than 20 it answers 201 and appends the
reservation, with status `pending`. -/
theorem createReservation_capacity (user : User) (b : ReservationBody) (rs : List Reservation)
    (d : Int) (hv : validateReservationBody b = []) (hd : b.date = DateArg.instant d) :
    (20 ≤ slotCount rs d b.time →
      createReservation user b rs =
        ({ status := 400, body := Payload.message "Selected time slot is fully booked" }, rs)) ∧
    (slotCount rs d b.time < 20 →
      ∃ r, createReservation user b rs =
          ({ status := 201, body := Payload.reservation r }, rs ++ [r]) ∧
        r.user = user._id ∧ r.date = d ∧ r.time = b.time ∧ r.partySize = b.partySize ∧
        r.status = "pending") := by
  obtain ⟨_, _, hp1, _⟩ := validateReservationBody_nil b hv
  constructor
  · intro hfull
    simp [createReservation, hv, hd, filter_slotQuery_length, hfull]
  · intro hfree
    refine ⟨{ _id := freshIdOf (rs.map (fun r => r._id)), user := user._id, date := d,
              time := b.time, partySize := b.partySize,
              specialRequests := b.specialRequests.map jsTrim, status := "pending" },
            ?_, rfl, rfl, rfl, rfl, rfl⟩
    have hval := Reservation.validate_of_valid
      { _id := freshIdOf (rs.map (fun r => r._id)), user := user._id, date := d,
        time := b.time, partySize := b.partySize,
        specialRequests := b.specialRequests.map jsTrim, status := "pending" }
      hp1 (by simp [reservationStatusEnum])
    have hmail : callTemplate "reservationConfirmation" = Except.ok () := rfl
    simp [createReservation, hv, hd, filter_slotQuery_length, Nat.not_le.mpr hfree, hval, hmail]

/-- Witness for C11 as amended: a request for a slot that holds 20 confirmed
reservations, and the same request on an empty store. -/
theorem createReservation_capacity_witness :
    createReservation alice sampleReservationBody fullSlot =
      ({ status := 400, body := Payload.message "Selected time slot is fully booked" },
       fullSlot) ∧
    ∃ r, createReservation alice sampleReservationBody [] =
        ({ status := 201, body := Payload.reservation r }, [] ++ [r]) ∧
      r.user = alice._id ∧ r.date = 100 ∧ r.time = sampleReservationBody.time ∧
      r.partySize = sampleReservationBody.partySize ∧ r.status = "pending" :=
  ⟨(createReservation_capacity alice sampleReservationBody fullSlot 100 (by decide) rfl).1
      (by decide),
   (createReservation_capacity alice sampleReservationBody [] 100 (by decide) rfl).2
      (by decide)⟩

/-- Counting after `updateFirst`: the rewritten document leaves the count and
its image enters it. -/
theorem countP_updateFirst {α : Type} (q : α → Bool) (f : α → α) (p : α → Bool)
    (l : List α) (r : α) (h : l.find? q = some r) :
    (updateFirst q f l).countP p + (if p r = true then 1 else 0) =
      l.countP p + (if p (f r) = true then 1 else 0) := by
  induction l with
  | nil => simp at h
  | cons a as ih =>
    by_cases hq : q a = true
    · have hr : a = r := by simpa [List.find?_cons, hq] using h
      subst hr
      simp only [updateFirst, hq, if_true, List.countP_cons]
      omega
    · have hq' : q a = false := by simpa using hq
      have h' : as.find? q = some r := by simpa [List.find?_cons, hq'] using h
      have hu : updateFirst q f (a :: as) = a :: updateFirst q f as := by
        simp [updateFirst, hq']
      rw [hu]
      simp only [List.countP_cons]
      have := ih h'
      omega

/-- After `updateFirst` with a constant image that satisfies the query, the
query finds the image. -/
theorem find?_updateFirst {α : Type} (q : α → Bool) (r' : α) (l : List α) (r : α)
    (h : l.find? q = some r) (hq : q r' = true) :
    (updateFirst q (fun _ => r') l).find? q = some r' := by
  induction l with
  | nil => simp at h
  | cons a as ih =>
    by_cases hqa : q a = true
    · simp [updateFirst, hqa, List.find?_cons, hq]
    · have hqa' : q a = false := by simpa using hqa
      have h' : as.find? q = some r := by simpa [List.find?_cons, hqa'] using h
      simp [updateFirst, hqa', List.find?_cons, ih h']

/-- The collection after `DELETE /api/reservations/:id` when the query finds a
document that `save()` accepts. -/
theorem cancelReservation_store (user : User) (id : Nat) (rs : List Reservation)
    (r : Reservation) (hf : rs.find? (ownQuery user id) = some r) (hp : 1 ≤ r.partySize) :
    (cancelReservation user id rs).2 =
      updateFirst (ownQuery user id) (fun _ => { r with status := "cancelled" }) rs := by
  have hval := Reservation.validate_of_valid { r with status := "cancelled" } hp
    (by simp [reservationStatusEnum])
  unfold cancelReservation
  simp only [hf, hval]
  split <;> rfl

/-- C14: cancelling a reservation owned by the caller (one that `save()`
accepts, party size at least 1) rewrites that record in place to the same
record with `status = cancelled`, keeps the number of records, and, when the
reservation was not already cancelled, the availability check of its slot then
counts one reservation fewer. -/
theorem cancelReservation_soft (user : User) (id : Nat) (rs : List Reservation)
    (r : Reservation) (hf : rs.find? (ownQuery user id) = some r) (hp : 1 ≤ r.partySize) :
    (cancelReservation user id rs).2 =
      updateFirst (ownQuery user id) (fun _ => { r with status := "cancelled" }) rs ∧
    (cancelReservation user id rs).2.length = rs.length ∧
    (cancelReservation user id rs).2.find? (ownQuery user id) =
      some { r with status := "cancelled" } ∧
    (r.status ≠ "cancelled" →
      ∃ n, slotCount rs r.date r.time = n + 1 ∧
        checkAvailability (some r.date) r.time rs =
          { status := 200, body := Payload.availability (decide (n + 1 < 20)) (20 - (n + 1)) } ∧
        checkAvailability (some r.date) r.time (cancelReservation user id rs).2 =
          { status := 200, body := Payload.availability (decide (n < 20)) (20 - n) }) := by
  have hs := cancelReservation_store user id rs r hf hp
  have hq : ownQuery user id r = true := by
    have := List.find?_some hf
    simpa using this
  refine ⟨hs, ?_, ?_, ?_⟩
  · rw [hs, updateFirst_length]
  · rw [hs]
    exact find?_updateFirst _ _ rs r hf (by simpa [ownQuery] using hq)
  · intro hne
    have hc := countP_updateFirst (ownQuery user id) (fun _ => { r with status := "cancelled" })
      (inSlot r.date r.time) rs r hf
    have hin : inSlot r.date r.time r = true := by simp [inSlot, hne]
    have hout : inSlot r.date r.time { r with status := "cancelled" } = false := by
      simp [inSlot]
    simp only [hin, hout, if_true, Bool.false_eq_true, if_false, Nat.add_zero] at hc
    refine ⟨slotCount (cancelReservation user id rs).2 r.date r.time, ?_, ?_, ?_⟩
    · rw [hs]
      exact hc.symm
    · simp only [checkAvailability, filter_slotQuery_length]
      have h1 : slotCount rs r.date r.time =
          slotCount (cancelReservation user id rs).2 r.date r.time + 1 := by
        rw [hs]; exact hc.symm
      rw [h1]
      simp
    · simp only [checkAvailability, filter_slotQuery_length]

/-- Witness for C14: `bob` cancels his pending reservation 2. -/
theorem cancelReservation_soft_witness :
    (cancelReservation bob 2 bobStore).2 =
      updateFirst (ownQuery bob 2)
        (fun _ => { sampleReservation 2 "pending" with status := "cancelled" }) bobStore ∧
    (cancelReservation bob 2 bobStore).2.length = bobStore.length ∧
    (cancelReservation bob 2 bobStore).2.find? (ownQuery bob 2) =
      some { sampleReservation 2 "pending" with status := "cancelled" } ∧
    ∃ n, slotCount bobStore (sampleReservation 2 "pending").date
          (sampleReservation 2 "pending").time = n + 1 ∧
        checkAvailability (some (sampleReservation 2 "pending").date)
            (sampleReservation 2 "pending").time bobStore =
          { status := 200, body := Payload.availability (decide (n + 1 < 20)) (20 - (n + 1)) } ∧
        checkAvailability (some (sampleReservation 2 "pending").date)
            (sampleReservation 2 "pending").time (cancelReservation bob 2 bobStore).2 =
          { status := 200, body := Payload.availability (decide (n < 20)) (20 - n) } :=
  ⟨(cancelReservation_soft bob 2 bobStore (sampleReservation 2 "pending")
      (by decide) (by decide)).1,
   (cancelReservation_soft bob 2 bobStore (sampleReservation 2 "pending")
      (by decide) (by decide)).2.1,
   (cancelReservation_soft bob 2 bobStore (sampleReservation 2 "pending")
      (by decide) (by decide)).2.2.1,
   (cancelReservation_soft bob 2 bobStore (sampleReservation 2 "pending")
      (by decide) (by decide)).2.2.2 (by decide)⟩

/-- The collection after `POST /api/reservations`: unchanged, or one reservation
appended to a slot that the query found to hold fewer than 20. -/
theorem createReservation_store (user : User) (b : ReservationBody) (rs : List Reservation) :
    (createReservation user b rs).2 = rs ∨
    ∃ d r, (rs.filter (slotQuery d b.time)).length < 20 ∧ r.date = d ∧ r.time = b.time ∧
      r._id = freshIdOf (rs.map (fun x => x._id)) ∧
      (createReservation user b rs).2 = rs ++ [r] := by
  unfold createReservation
  dsimp only
  split_ifs with hv
  · left; rfl
  · split
    · left; rfl
    · next d hd =>
      split_ifs with hfull
      · left; rfl
      · split
        · left; rfl
        · next saved hval =>
          right
          have hs := (Reservation.validate_ok_eq _ _ hval).1
          subst hs
          refine ⟨d, { _id := freshIdOf (rs.map (fun r => r._id)), user := user._id, date := d,
                       time := b.time, partySize := b.partySize,
                       specialRequests := b.specialRequests.map jsTrim,
                       status := "pending" },
                  Nat.not_le.mp hfull, rfl, rfl, rfl, ?_⟩
          split <;> rfl

/-- The collection after `PUT /api/reservations/:id`: unchanged, or the first
document matching the query rewritten with the requested date and time, after
the query found fewer than 20 other reservations in the requested slot. -/
theorem updateReservation_store (user : User) (id : Nat) (b : ReservationBody)
    (rs : List Reservation) :
    (updateReservation user id b rs).2 = rs ∨
    ∃ d r r', rs.find? (ownQuery user id) = some r ∧
      (rs.filter (slotQueryExcept d b.time id)).length < 20 ∧
      r'.date = d ∧ r'.time = b.time ∧ r'.status = r.status ∧ r'._id = r._id ∧
      (updateReservation user id b rs).2 = updateFirst (ownQuery user id) (fun _ => r') rs := by
  unfold updateReservation
  dsimp only
  split_ifs with hv
  · left; rfl
  · split
    · left; rfl
    · next r hf =>
      split
      · left; rfl
      · next d hd =>
        split_ifs with hfull
        · left; rfl
        · split
          · left; rfl
          · next saved hval =>
            right
            have hs := (Reservation.validate_ok_eq _ _ hval).1
            subst hs
            refine ⟨d, r, { r with date := d, time := b.time, partySize := b.partySize,
                                   specialRequests := b.specialRequests.map jsTrim },
                    hf, Nat.not_le.mp hfull, rfl, rfl, rfl, rfl, ?_⟩
            split <;> rfl

/-- The collection after `DELETE /api/reservations/:id`: unchanged, or the first
document matching the query rewritten with `status = cancelled`. -/
theorem cancelReservation_store_cases (user : User) (id : Nat) (rs : List Reservation) :
    (cancelReservation user id rs).2 = rs ∨
    ∃ r r', rs.find? (ownQuery user id) = some r ∧ r'.status = "cancelled" ∧
      r'._id = r._id ∧
      (cancelReservation user id rs).2 = updateFirst (ownQuery user id) (fun _ => r') rs := by
  unfold cancelReservation
  split
  · left; rfl
  · next r hf =>
    dsimp only
    split
    · left; rfl
    · next saved hval =>
      right
      have hs := (Reservation.validate_ok_eq _ _ hval).1
      subst hs
      refine ⟨r, { r with status := "cancelled" }, hf, rfl, rfl, ?_⟩
      split <;> rfl

/-- With unique ids, a count over the collection is the count over the
documents with another id plus the contribution of the document with the id. -/
theorem countP_split_id (p : Reservation → Bool) (id : Nat) (r : Reservation) :
    ∀ (rs : List Reservation), uniqueIds rs → r ∈ rs → r._id = id →
      rs.countP p = rs.countP (fun x => p x && x._id != id) + (if p r = true then 1 else 0) := by
  intro rs
  induction rs with
  | nil => intro _ hm; simp at hm
  | cons a as ih =>
    intro hu hm hid
    have hu' : a._id ∉ as.map (fun x => x._id) ∧ uniqueIds as := by
      simpa [uniqueIds] using hu
    rcases List.mem_cons.mp hm with rfl | hm'
    · have hrest : as.countP (fun x => p x && x._id != id) = as.countP p := by
        apply List.countP_congr
        intro x hx
        have hne : x._id ≠ id := by
          intro hx'
          apply hu'.1
          rw [hid, ← hx']
          exact List.mem_map_of_mem _ hx
        simp [hne]
      simp only [List.countP_cons, hrest, hid, bne_self_eq_false, Bool.and_false,
        Bool.false_eq_true, if_false]
      omega
    · have hne : a._id ≠ id := by
        intro ha
        apply hu'.1
        rw [ha, ← hid]
        exact List.mem_map_of_mem _ hm'
      have hb : (a._id != id) = true := by simpa using hne
      have := ih hu'.2 hm' hid
      simp only [List.countP_cons, hb, Bool.and_true]
      omega

/-- A store with at most 20 reservations that are not cancelled satisfies the
capacity invariant. -/
theorem capacityOk_of_few (rs : List Reservation)
    (h : rs.countP (fun r => r.status != "cancelled") ≤ 20) : capacityOk rs := by
  intro d t
  refine le_trans ?_ h
  unfold slotCount
  apply List.countP_mono_left
  intro r _ hr
  have hr' : r.date = d ∧ r.time = t ∧ r.status ≠ "cancelled" := by simpa [inSlot] using hr
  simpa using hr'.2.2

/-- The slot query that excludes an id, as a conjunction with the slot
predicate. -/
theorem slotQueryExcept_eq (d : Int) (t : String) (id : Nat) (r : Reservation) :
    slotQueryExcept d t id r = (inSlot d t r && r._id != id) := by
  by_cases h1 : r.date = d <;> by_cases h2 : r.time = t <;>
    by_cases h3 : r.status = "cancelled" <;> by_cases h4 : r._id = id <;>
    simp [slotQueryExcept, inSlot, h1, h2, h3, h4]

/-- C12, as stated, fails: the slot (100, "19:00") holds 20 confirmed
reservations and the cancelled reservation 21; the admin reservation update
sets reservation 21 to `confirmed` without a capacity check, and the slot then
holds 21 reservations that are not cancelled. -/
theorem adminUpdateReservation_breaks_capacity :
    uniqueIds fullSlotAndCancelled ∧ capacityOk fullSlotAndCancelled ∧
    (adminUpdateReservation 21 "confirmed" fullSlotAndCancelled).1.status = 200 ∧
    slotCount (adminUpdateReservation 21 "confirmed" fullSlotAndCancelled).2 100 "19:00" = 21 ∧
    ¬ capacityOk (adminUpdateReservation 21 "confirmed" fullSlotAndCancelled).2 := by
  have h21 :
      slotCount (adminUpdateReservation 21 "confirmed" fullSlotAndCancelled).2 100 "19:00" = 21 := by
    decide
  refine ⟨by unfold uniqueIds; decide, capacityOk_of_few _ (by decide), by decide, h21, ?_⟩
  intro hc
  have := hc 100 "19:00"
  omega

/-- C12, amended: starting from a store with unique ids in which every slot
holds at most 20 reservations that are not cancelled, the customer create, the
customer update and the customer cancel each leave every slot with at most 20
reservations that are not cancelled. -/
theorem capacity_kept_by_customer_operations (user : User) (id : Nat) (b : ReservationBody)
    (rs : List Reservation) (hu : uniqueIds rs) (hc : capacityOk rs) :
    capacityOk (createReservation user b rs).2 ∧
    capacityOk (updateReservation user id b rs).2 ∧
    capacityOk (cancelReservation user id rs).2 := by
  refine ⟨?_, ?_, ?_⟩
  · rcases createReservation_store user b rs with h | ⟨d, r, hlt, hd, ht, _, h⟩
    · rw [h]; exact hc
    · rw [h]
      intro d0 t0
      have h0 := hc d0 t0
      unfold slotCount at h0 ⊢
      rw [List.countP_append]
      by_cases hP : inSlot d0 t0 r = true
      · have hP' : r.date = d0 ∧ r.time = t0 ∧ r.status ≠ "cancelled" := by
          simpa [inSlot] using hP
        have hcount : rs.countP (inSlot d0 t0) < 20 := by
          have := filter_slotQuery_length rs d b.time
          unfold slotCount at this
          rw [← hP'.1, ← hP'.2.1, hd, ht, ← this]
          exact hlt
        simp only [List.countP_cons, List.countP_nil, hP, if_true]
        omega
      · simp only [List.countP_cons, List.countP_nil, hP, Bool.false_eq_true, if_false]
        omega
  · rcases updateReservation_store user id b rs with h | ⟨d, r, r', hf, hlt, hd, ht, hst, _, h⟩
    · rw [h]; exact hc
    · rw [h]
      intro d0 t0
      have h0 := hc d0 t0
      have hq : ownQuery user id r = true := by simpa using List.find?_some hf
      have hid : r._id = id := by
        have : r._id = id ∧ r.user = user._id := by simpa [ownQuery] using hq
        exact this.1
      have hmem : r ∈ rs := List.mem_of_find?_eq_some hf
      have hcount := countP_updateFirst (ownQuery user id) (fun _ => r') (inSlot d0 t0) rs r hf
      have hsplit := countP_split_id (inSlot d0 t0) id r rs hu hmem hid
      unfold slotCount at h0 ⊢
      by_cases hP : inSlot d0 t0 r' = true
      · have hP' : r'.date = d0 ∧ r'.time = t0 ∧ r'.status ≠ "cancelled" := by
          simpa [inSlot] using hP
        have hexc : rs.countP (fun x => inSlot d0 t0 x && x._id != id) < 20 := by
          have hfun : (fun x : Reservation => inSlot d0 t0 x && x._id != id) =
              slotQueryExcept d b.time id := by
            funext x
            rw [slotQueryExcept_eq, ← hd, ← ht, hP'.1, hP'.2.1]
          rw [hfun, List.countP_eq_length_filter]
          exact hlt
        simp only [hP, if_true] at hcount
        omega
      · simp only [hP, Bool.false_eq_true, if_false, Nat.add_zero] at hcount
        omega
  · rcases cancelReservation_store_cases user id rs with h | ⟨r, r', hf, hst, _, h⟩
    · rw [h]; exact hc
    · rw [h]
      intro d0 t0
      have h0 := hc d0 t0
      have hcount := countP_updateFirst (ownQuery user id) (fun _ => r') (inSlot d0 t0) rs r hf
      have hout : inSlot d0 t0 r' = false := by simp [inSlot, hst]
      unfold slotCount at h0 ⊢
      simp only [hout, Bool.false_eq_true, if_false, Nat.add_zero] at hcount
      omega

/-- Witness for C12 as amended: the full slot (100, "19:00"), a further request
for it by `bob`, and an update and a cancel of his reservation 3. -/
theorem capacity_kept_by_customer_operations_witness :
    capacityOk (createReservation bob sampleReservationBody fullSlot).2 ∧
    capacityOk (updateReservation bob 3 sampleReservationBody fullSlot).2 ∧
    capacityOk (cancelReservation bob 3 fullSlot).2 :=
  capacity_kept_by_customer_operations bob 3 sampleReservationBody fullSlot
    (by unfold uniqueIds; decide) (capacityOk_of_few fullSlot (by decide))

/-- Every id in use is at most the maximum that `freshIdOf` computes. -/
theorem le_foldr_max (ids : List Nat) (x : Nat) (h : x ∈ ids) : x ≤ ids.foldr max 0 := by
  induction ids with
  | nil => simp at h
  | cons a as ih =>
    rcases List.mem_cons.mp h with rfl | h'
    · simp
    · have := ih h'
      simp only [List.foldr_cons]
      omega

/-- The id given to a new document is not in use. -/
theorem freshIdOf_not_mem (ids : List Nat) : freshIdOf ids ∉ ids := by
  intro h
  have := le_foldr_max ids _ h
  unfold freshIdOf at this
  omega

/-- An update that keeps the id of the rewritten document keeps the list of
ids. -/
theorem map_id_updateFirst (q : Reservation → Bool) (f : Reservation → Reservation)
    (l : List Reservation) (h : ∀ x ∈ l, q x = true → (f x)._id = x._id) :
    (updateFirst q f l).map (fun r => r._id) = l.map (fun r => r._id) := by
  induction l with
  | nil => rfl
  | cons a as ih =>
    by_cases hq : q a = true
    · simp [updateFirst, hq, h a (List.mem_cons_self _ _) hq]
    · have hq' : q a = false := by simpa using hq
      simp [updateFirst, hq', ih (fun x hx => h x (List.mem_cons_of_mem _ hx))]

/-- The reservation operations keep document ids unique. -/
theorem uniqueIds_kept (user : User) (id : Nat) (b : ReservationBody) (status : String)
    (rs : List Reservation) (hu : uniqueIds rs) :
    uniqueIds (createReservation user b rs).2 ∧
    uniqueIds (updateReservation user id b rs).2 ∧
    uniqueIds (cancelReservation user id rs).2 ∧
    uniqueIds (adminUpdateReservation id status rs).2 := by
  have hown : ∀ (r r' : Reservation), rs.find? (ownQuery user id) = some r → r'._id = r._id →
      ∀ x ∈ rs, ownQuery user id x = true → ((fun _ => r') x)._id = x._id := by
    intro r r' hf hid x _ hx
    have hq : ownQuery user id r = true := by simpa using List.find?_some hf
    have h1 : r._id = id ∧ r.user = user._id := by simpa [ownQuery] using hq
    have h2 : x._id = id ∧ x.user = user._id := by simpa [ownQuery] using hx
    show r'._id = x._id
    rw [hid, h1.1, h2.1]
  refine ⟨?_, ?_, ?_, ?_⟩
  · rcases createReservation_store user b rs with h | ⟨d, r, _, _, _, hid, h⟩
    · rw [h]; exact hu
    · rw [h]
      unfold uniqueIds at hu ⊢
      rw [List.map_append, List.nodup_append]
      refine ⟨hu, by simp, ?_⟩
      intro x hx hx'
      have hxr : x = r._id := by simpa using hx'
      rw [hxr, hid] at hx
      exact freshIdOf_not_mem _ hx
  · rcases updateReservation_store user id b rs with h | ⟨d, r, r', hf, _, _, _, _, hid, h⟩
    · rw [h]; exact hu
    · rw [h]
      unfold uniqueIds at hu ⊢
      rw [map_id_updateFirst _ _ rs (hown r r' hf hid)]
      exact hu
  · rcases cancelReservation_store_cases user id rs with h | ⟨r, r', hf, _, hid, h⟩
    · rw [h]; exact hu
    · rw [h]
      unfold uniqueIds at hu ⊢
      rw [map_id_updateFirst _ _ rs (hown r r' hf hid)]
      exact hu
  · unfold adminUpdateReservation
    split
    · exact hu
    · unfold uniqueIds at hu ⊢
      dsimp only
      rw [map_id_updateFirst (fun r => r._id == id) (fun r => { r with status := status }) rs
        (fun x _ _ => rfl)]
      exact hu

/-! ## Theorems: reviews -/

/-- The eligibility query holds for an order exactly when it has the id, belongs
to the caller and has the status `completed`. -/
theorem eligibleQuery_iff (user : User) (orderId : Nat) (o : Order) :
    eligibleQuery user orderId o = true ↔
      o._id = orderId ∧ o.user = user._id ∧ o.status = "completed" := by
  simp [eligibleQuery, and_assoc]

/-- A validated submission whose order the eligibility query does not find is
answered 400 with the not-eligible message, and no review is written. -/
theorem createReview_not_eligible (strictQuery : Bool) (now : Nat) (user : User)
    (b : ReviewBody) (orders : List Order) (reviews : List Review) (orderId : Nat)
    (hv : validateReviewBody b = []) (ho : b.orderId = some orderId)
    (h : orders.find? (eligibleQuery user orderId) = none) :
    createReview strictQuery now user b orders reviews =
      ({ status := 400, body := Payload.message "Order not found or not eligible for review" },
       reviews) := by
  simp [createReview, hv, ho, h]

/-- Every review that a submission writes carries neither an `order` nor a
`status` field: the schema declares neither path. -/
theorem createReview_writes_schema_paths (strictQuery : Bool) (now : Nat) (user : User)
    (b : ReviewBody) (orders : List Order) (reviews : List Review) :
    (createReview strictQuery now user b orders reviews).2 = reviews ∨
    ∃ r, r.order = none ∧ r.status = none ∧
      (createReview strictQuery now user b orders reviews).2 = reviews ++ [r] := by
  unfold createReview
  dsimp only
  split_ifs with hv
  · left; rfl
  · split
    · left; rfl
    · split
      · left; rfl
      · split
        · left; rfl
        · split
          · left; rfl
          · next saved hval =>
            right
            refine ⟨saved, ?_, ?_, rfl⟩
            all_goals
              unfold Review.validate at hval
              split at hval
              · cases hval
              · cases hval
              · cases hval
              · split_ifs at hval
                cases hval
                rfl

/-- Writing back the document that the query finds leaves the collection as it
is. -/
theorem updateFirst_same {α : Type} (q : α → Bool) (l : List α) (r : α)
    (h : l.find? q = some r) : updateFirst q (fun _ => r) l = l := by
  induction l with
  | nil => rfl
  | cons a as ih =>
    by_cases hq : q a = true
    · have hr : a = r := by simpa [List.find?_cons, hq] using h
      subst hr
      simp [updateFirst, hq]
    · have hq' : q a = false := by simpa using hq
      have h' : as.find? q = some r := by simpa [List.find?_cons, hq'] using h
      simp [updateFirst, hq', ih h']

/-- A loaded review that `save()` accepts is written back as it is. -/
theorem Review.save_ok (r s : Review) (h : r.save = Except.ok s) : s = r := by
  unfold Review.save at h
  split at h
  · cases h
  · cases h
    rfl

/-- The moderation never changes a stored review: every path it assigns
(`status`, `moderationComment`, `moderatedAt`, `moderatedBy`) is outside the
schema. -/
theorem moderateReview_store (now : Nat) (user : User) (id : Nat) (status : String)
    (moderationComment : Option String) (reviews : List Review) :
    (moderateReview now user id status moderationComment reviews).2 = reviews := by
  unfold moderateReview
  split_ifs
  · rfl
  · split
    · rfl
    · next review hf =>
      have hassign : ∀ (r : Review) (v : Val),
          (((r.assign "status" (Val.str status)).assign "moderationComment" v).assign
            "moderatedAt" (Val.num now)).assign "moderatedBy" (Val.oid user._id) = r := by
        intro r v
        rfl
      simp only [hassign]
      split
      · rfl
      · next saved hs =>
        have hsr : saved = review := Review.save_ok review saved hs
        subst hsr
        exact updateFirst_same _ reviews saved hf
  · rfl

/-- With `strictQuery` unset, the duplicate query matches no review that has no
`order` field. -/
theorem duplicate_query_no_match (orderId : Nat) (user : User) (r : Review)
    (h : r.order = none) :
    Review.matches false [("order", Val.oid orderId), ("user", Val.oid user._id)] r = false := by
  simp [Review.matches, Review.field, h]

/-- With `strictQuery` unset and a store of reviews written by the handler (no
`order` field), a submission is never answered as a duplicate. -/
theorem createReview_no_duplicate_check (now : Nat) (user : User) (b : ReviewBody)
    (orders : List Order) (reviews : List Review) (h : ∀ r ∈ reviews, r.order = none) :
    (createReview false now user b orders reviews).1 ≠
      { status := 400, body := Payload.message "You have already reviewed this order" } := by
  unfold createReview
  dsimp only
  split_ifs with hv
  · simp
  · split
    · simp
    · next orderId _ =>
      split
      · simp
      · split
        · next found hfound =>
          exfalso
          have hm := List.find?_some hfound
          have hmem := List.mem_of_find?_eq_some hfound
          rw [duplicate_query_no_match orderId user found (h found hmem)] at hm
          exact Bool.false_ne_true hm
        · split <;> simp

/-- C15, at a review submitted by the owner of an order whose status is
`delivered`: the eligibility query asks for the status `completed`, a value
outside the `enum` of `orderSchema.status`, so the submission is answered 400
with the not-eligible message, whatever the `strictQuery` option. -/
theorem createReview_delivered_rejected :
    (sampleOrder 1 "delivered" none).user = alice._id ∧
    "delivered" ∈ orderStatusEnum ∧ "completed" ∉ orderStatusEnum ∧
    validateReviewBody (sampleReviewBody 1) = [] ∧
    createReview false 7 alice (sampleReviewBody 1) [sampleOrder 1 "delivered" none] [] =
      ({ status := 400, body := Payload.message "Order not found or not eligible for review" },
       []) ∧
    createReview true 7 alice (sampleReviewBody 1) [sampleOrder 1 "delivered" none] [] =
      ({ status := 400, body := Payload.message "Order not found or not eligible for review" },
       []) := by
  refine ⟨by decide, by decide, by decide, by decide, by decide, by decide⟩

/-- C16, at two submissions by `alice` for her order 1 (status `completed`):
with `strictQuery` unset the duplicate query filters on `order`, a field that
no stored review has, so the second submission is answered 201 and a second
review is written; with `strictQuery` set the `order` key is removed from the
filter and a review by the same user for another order is answered as a
duplicate. -/
theorem duplicate_review_accepted :
    createReview false 7 alice (sampleReviewBody 1) [sampleOrder 1 "completed" none] [] =
      ({ status := 201, body := Payload.review (storedReview 1) }, [storedReview 1]) ∧
    createReview false 7 alice (sampleReviewBody 1) [sampleOrder 1 "completed" none]
        [storedReview 1] =
      ({ status := 201, body := Payload.review (storedReview 2) },
       [storedReview 1, storedReview 2]) ∧
    (storedReview 1).user = (storedReview 2).user ∧
    (storedReview 1).order = none ∧ (storedReview 2).order = none ∧
    createReview true 7 alice (sampleReviewBody 2)
        [sampleOrder 1 "completed" none, sampleOrder 2 "completed" none] [storedReview 1] =
      ({ status := 400, body := Payload.message "You have already reviewed this order" },
       [storedReview 1]) := by
  refine ⟨by decide, by decide, by decide, by decide, by decide, by decide⟩

/-- C17, at a valid submission by `alice` for her order 1 (status `completed`):
the review is stored without a `status`; the moderation with `approved` by an
admin answers 200 and leaves the stored review as it is; the public listing
then is empty with `strictQuery` unset, and with `strictQuery` set it holds the
review although nobody approved it. -/
theorem review_status_not_stored :
    createReview false 7 alice (sampleReviewBody 1) [sampleOrder 1 "completed" none] [] =
      ({ status := 201, body := Payload.review (storedReview 1) }, [storedReview 1]) ∧
    createReview true 7 alice (sampleReviewBody 1) [sampleOrder 1 "completed" none] [] =
      ({ status := 201, body := Payload.review (storedReview 1) }, [storedReview 1]) ∧
    (storedReview 1).status = none ∧
    moderateReview 9 root 1 "approved" none [storedReview 1] =
      ({ status := 200, body := Payload.review (storedReview 1) }, [storedReview 1]) ∧
    listReviews false [storedReview 1] = { status := 200, body := Payload.reviews [] } ∧
    listReviews true [storedReview 1] =
      { status := 200, body := Payload.reviews [storedReview 1] } := by
  refine ⟨by decide, by decide, by decide, by decide, by decide, by decide⟩

/-! ## Theorems: payment intent -/

/-- The value of `Math.round` lies within one half of its argument, a tie going
up. -/
theorem Math.round_bounds (x : ℚ) :
    x - 1 / 2 < (Math.round x : ℚ) ∧ (Math.round x : ℚ) ≤ x + 1 / 2 := by
  unfold Math.round
  constructor
  · have := Int.lt_floor_add_one (x + 1 / 2)
    linarith
  · exact Int.floor_le _

/-- The function `Math.round` leaves an integer as it is. -/
theorem Math.round_int (k : ℤ) : Math.round (k : ℚ) = k := by
  unfold Math.round
  rw [Int.floor_int_add]
  have : ⌊(1 / 2 : ℚ)⌋ = 0 := by
    rw [Int.floor_eq_iff]
    norm_num
  omega

/-- The value of `roundHalfEven` lies within one half of its argument. -/
theorem roundHalfEven_error (x : ℚ) : |(roundHalfEven x : ℚ) - x| ≤ 1 / 2 := by
  have h1 := Int.floor_le x
  have h2 := Int.lt_floor_add_one x
  unfold roundHalfEven
  rw [abs_le]
  split_ifs <;> push_cast <;> constructor <;> linarith

/-- An argument strictly within one half of an integer is rounded to it. -/
theorem roundHalfEven_eq (x : ℚ) (n : ℤ) (h1 : (n : ℚ) - 1 / 2 < x) (h2 : x < n + 1 / 2) :
    roundHalfEven x = n := by
  have he := abs_le.mp (roundHalfEven_error x)
  have h3 : (roundHalfEven x : ℚ) < ((n + 1 : ℤ) : ℚ) := by push_cast; linarith
  have h4 : ((n - 1 : ℤ) : ℚ) < (roundHalfEven x : ℚ) := by push_cast; linarith
  have h5 : roundHalfEven x < n + 1 := by exact_mod_cast h3
  have h6 : n - 1 < roundHalfEven x := by exact_mod_cast h4
  omega

/-- The binade of a value between two consecutive powers of two. -/
theorem binade_eq (x : ℚ) (e : ℤ) (h0 : -1022 ≤ e) (h1 : (2 : ℚ) ^ e ≤ |x|)
    (h2 : |x| < (2 : ℚ) ^ (e + 1)) : binade x = e := by
  have hpos : 0 < |x| := lt_of_lt_of_le (zpow_pos (by norm_num) e) h1
  have hb : 1 < 2 := by norm_num
  have h3 : e ≤ Int.log 2 |x| := (Int.zpow_le_iff_le_log hb hpos).mp (by simpa using h1)
  have h4 : Int.log 2 |x| < e + 1 := (Int.lt_zpow_iff_log_lt hb hpos).mp (by simpa using h2)
  unfold binade
  omega

/-- The double nearest to a value of a known binade. -/
theorem toDouble_eq (x : ℚ) (e n : ℤ) (h0 : -1022 ≤ e) (h1 : (2 : ℚ) ^ e ≤ |x|)
    (h2 : |x| < (2 : ℚ) ^ (e + 1)) (h3 : (n : ℚ) - 1 / 2 < x / 2 ^ (e - 52))
    (h4 : x / 2 ^ (e - 52) < n + 1 / 2) : toDouble x = n * 2 ^ (e - 52) := by
  unfold toDouble ulp
  rw [binade_eq x e h0 h1 h2, roundHalfEven_eq _ n h3 h4]

/-- The rounding to a double has a relative error of at most `2 ^ (-53)`, and
an absolute error of at most `2 ^ (-1075)` among the subnormal values. -/
theorem toDouble_error (x : ℚ) :
    |toDouble x - x| ≤ 2 ^ (-53 : ℤ) * |x| + 2 ^ (-1075 : ℤ) := by
  have hu : 0 < ulp x := zpow_pos (by norm_num) _
  have herr := roundHalfEven_error (x / ulp x)
  have h1 : |toDouble x - x| = |(roundHalfEven (x / ulp x) : ℚ) - x / ulp x| * ulp x := by
    unfold toDouble
    rw [← abs_of_pos hu, ← abs_mul, abs_of_pos hu]
    congr 1
    field_simp
  have h2 : |toDouble x - x| ≤ ulp x / 2 := by
    rw [h1]
    calc |(roundHalfEven (x / ulp x) : ℚ) - x / ulp x| * ulp x
        ≤ 1 / 2 * ulp x := mul_le_mul_of_nonneg_right herr hu.le
      _ = ulp x / 2 := by ring
  have hx0 : 0 ≤ (2 : ℚ) ^ (-53 : ℤ) * |x| := by positivity
  have hs0 : (0 : ℚ) < 2 ^ (-1075 : ℤ) := zpow_pos (by norm_num) _
  by_cases hx : x = 0
  · subst hx
    have : toDouble 0 = 0 := by simp [toDouble, roundHalfEven]
    rw [this]
    simp only [sub_zero, abs_zero, mul_zero, zero_add]
    exact hs0.le
  · have hpos : 0 < |x| := abs_pos.mpr hx
    by_cases hl : -1022 ≤ Int.log 2 |x|
    · have hb : binade x = Int.log 2 |x| := by unfold binade; omega
      have hle : (2 : ℚ) ^ (Int.log 2 |x|) ≤ |x| := by
        simpa using Int.zpow_log_le_self (b := 2) (by norm_num) hpos
      have hu2 : ulp x / 2 = 2 ^ (-53 : ℤ) * 2 ^ (Int.log 2 |x|) := by
        unfold ulp
        rw [hb, ← zpow_add₀ (by norm_num : (2 : ℚ) ≠ 0), div_eq_iff (by norm_num : (2 : ℚ) ≠ 0)]
        have : (2 : ℚ) ^ (-53 + Int.log 2 |x|) * 2 = 2 ^ (-53 + Int.log 2 |x| + 1) := by
          rw [zpow_add_one₀ (by norm_num : (2 : ℚ) ≠ 0)]
        rw [this]
        congr 1
        ring
      have : ulp x / 2 ≤ 2 ^ (-53 : ℤ) * |x| := by
        rw [hu2]
        exact mul_le_mul_of_nonneg_left hle (by positivity)
      exact le_trans h2 (le_trans this (le_add_of_nonneg_right hs0.le))
    · have hb : binade x = -1022 := by unfold binade; omega
      have hu2 : ulp x / 2 = 2 ^ (-1075 : ℤ) := by
        unfold ulp
        rw [hb, div_eq_iff (by norm_num : (2 : ℚ) ≠ 0), ← zpow_add_one₀ (by norm_num : (2 : ℚ) ≠ 0)]
        norm_num
      exact le_trans h2 (by rw [hu2]; exact le_add_of_nonneg_left hx0)

/-- An amount within a quarter of a whole number of cents is sent as that
number, when the amount stays below `2 ^ 50` cents. -/
theorem formatStripeAmount_near (a : ℚ) (k : ℤ) (hr : |a| * 100 ≤ 2 ^ 50)
    (hk : |a * 100 - k| ≤ 1 / 4) : formatStripeAmount a = k := by
  have he := toDouble_error (a * 100)
  have habs : |a * 100| = |a| * 100 := by rw [abs_mul]; norm_num
  have h1 : (2 : ℚ) ^ (-53 : ℤ) * |a * 100| ≤ 1 / 8 := by
    rw [habs]
    calc (2 : ℚ) ^ (-53 : ℤ) * (|a| * 100)
        ≤ 2 ^ (-53 : ℤ) * 2 ^ 50 := mul_le_mul_of_nonneg_left hr (by positivity)
      _ = 1 / 8 := by norm_num
  have h2 : (2 : ℚ) ^ (-1075 : ℤ) < 1 / 8 := by norm_num
  generalize (2 : ℚ) ^ (-53 : ℤ) * |a * 100| = u at he h1
  generalize (2 : ℚ) ^ (-1075 : ℤ) = v at he h2
  have he2 := abs_le.mp he
  have hk2 := abs_le.mp hk
  unfold formatStripeAmount Math.round fmul
  rw [Int.floor_eq_iff]
  constructor <;> linarith

/-- The literal 1.115 denotes the double `double1115`. -/
theorem toDouble_1115 : toDouble (1115 / 1000) = double1115 := by
  rw [toDouble_eq (1115 / 1000) 0 5021513584518103 (by norm_num)
    (by rw [abs_of_pos (by norm_num)]; norm_num) (by rw [abs_of_pos (by norm_num)]; norm_num)
    (by norm_num) (by norm_num)]
  norm_num [double1115]

/-- The product of the double 1.115 and 100 is rounded to the double 111.5. -/
theorem fmul_double1115 : fmul double1115 100 = 223 / 2 := by
  unfold fmul
  rw [toDouble_eq (double1115 * 100) 6 7846114975809536 (by norm_num)
    (by rw [abs_of_pos (by norm_num [double1115])]; norm_num [double1115])
    (by rw [abs_of_pos (by norm_num [double1115])]; norm_num [double1115])
    (by norm_num [double1115]) (by norm_num [double1115])]
  norm_num

/-- C18, as stated, fails: the total 1.115 is the double `double1115`, whose
product with 100 lies below 111.5, so that the integer nearest to it is 111;
JavaScript rounds the product to the double 111.5, `Math.round` takes the tie
up, and the amount sent to the provider is 112. -/
theorem formatStripeAmount_double_product :
    toDouble (1115 / 1000) = double1115 ∧
    (111 : ℚ) - 1 / 2 ≤ double1115 * 100 ∧ double1115 * 100 < 111 + 1 / 2 ∧
    Math.round (double1115 * 100) = 111 ∧
    fmul double1115 100 = 223 / 2 ∧
    formatStripeAmount double1115 = 112 ∧
    (createPaymentIntent sampleProvider double1115 "usd").2 =
      [{ amount := 112, currency := "usd", automaticPaymentMethods := true }] := by
  have h112 : formatStripeAmount double1115 = 112 := by
    unfold formatStripeAmount Math.round
    rw [fmul_double1115, Int.floor_eq_iff]
    norm_num
  refine ⟨toDouble_1115, by norm_num [double1115], by norm_num [double1115], ?_,
    fmul_double1115, h112, ?_⟩
  · unfold Math.round
    rw [Int.floor_eq_iff]
    norm_num [double1115]
  · show [({ amount := formatStripeAmount double1115, currency := "usd",
             automaticPaymentMethods := true } : IntentParams)] = _
    rw [h112]

/-- The literal 19.99 denotes the double `double1999`. -/
theorem toDouble_1999 : toDouble (1999 / 100) = double1999 := by
  rw [toDouble_eq (1999 / 100) 4 5626684784446013 (by norm_num)
    (by rw [abs_of_pos (by norm_num)]; norm_num) (by rw [abs_of_pos (by norm_num)]; norm_num)
    (by norm_num) (by norm_num)]
  norm_num [double1999]

/-- The double nearest to a whole number of cents, up to `10 ^ 15` cents, is
sent as that number of cents. -/
theorem formatStripeAmount_cents (k : ℤ) (hk : |(k : ℚ)| ≤ 10 ^ 15) :
    formatStripeAmount (toDouble (k / 100)) = k := by
  have he := toDouble_error ((k : ℚ) / 100)
  have habs : |(k : ℚ) / 100| = |(k : ℚ)| / 100 := by rw [abs_div]; norm_num
  have h1 : (2 : ℚ) ^ (-53 : ℤ) * |(k : ℚ) / 100| ≤ 1 / 800 := by
    rw [habs]
    calc (2 : ℚ) ^ (-53 : ℤ) * (|(k : ℚ)| / 100)
        ≤ 2 ^ (-53 : ℤ) * (10 ^ 15 / 100) :=
          mul_le_mul_of_nonneg_left (by linarith) (by positivity)
      _ ≤ 1 / 800 := by norm_num
  have h2 : (2 : ℚ) ^ (-1075 : ℤ) < 1 / 800 := by norm_num
  generalize (2 : ℚ) ^ (-53 : ℤ) * |(k : ℚ) / 100| = u at he h1
  generalize (2 : ℚ) ^ (-1075 : ℤ) = v at he h2
  have he2 := abs_le.mp he
  have hk2 := abs_le.mp hk
  have hp : (10 : ℚ) ^ 15 + 1 ≤ 2 ^ 50 := by norm_num
  apply formatStripeAmount_near
  · have : |toDouble ((k : ℚ) / 100)| ≤ |(k : ℚ)| / 100 + 1 / 400 := by
      rw [abs_le]
      rcases abs_cases (k : ℚ) with ⟨h, _⟩ | ⟨h, _⟩ <;> rw [h] <;> constructor <;> linarith
    linarith
  · rw [abs_le]
    constructor <;> linarith

/-- C18, amended: for a total `a` whose product with 100 is a finite double,
the amount that `createPaymentIntent` sends to the provider is
`formatStripeAmount a`, the integer nearest (a tie going up) to the product
`a * 100` as JavaScript computes it, rounded to a double; this product differs
from the exact one by at most `2 ^ (-53)` of its magnitude (and `2 ^ (-1075)`);
for a total within a quarter of a cent of `k` cents, below `2 ^ 50` cents, the
amount sent is `k`, and so it is for the double nearest to `k / 100`, up to
`10 ^ 15` cents. -/
theorem createPaymentIntent_amount (provider : Provider) (a : ℚ) (currency : String)
    (_hfin : |a| * 100 < 2 ^ 1023) :
    (createPaymentIntent provider a currency).2 =
      [{ amount := formatStripeAmount a, currency := currency,
         automaticPaymentMethods := true }] ∧
    (createPaymentIntent provider a currency).1 =
      provider { amount := formatStripeAmount a, currency := currency,
                 automaticPaymentMethods := true } ∧
    formatStripeAmount a = Math.round (fmul a 100) ∧
    fmul a 100 - 1 / 2 < (formatStripeAmount a : ℚ) ∧
    (formatStripeAmount a : ℚ) ≤ fmul a 100 + 1 / 2 ∧
    |fmul a 100 - a * 100| ≤ 2 ^ (-53 : ℤ) * |a * 100| + 2 ^ (-1075 : ℤ) ∧
    (∀ k : ℤ, |a| * 100 ≤ 2 ^ 50 → |a * 100 - k| ≤ 1 / 4 → formatStripeAmount a = k) ∧
    (∀ k : ℤ, |(k : ℚ)| ≤ 10 ^ 15 → formatStripeAmount (toDouble (k / 100)) = k) :=
  ⟨rfl, rfl, rfl, (Math.round_bounds (fmul a 100)).1, (Math.round_bounds (fmul a 100)).2,
   toDouble_error (a * 100), fun k => formatStripeAmount_near a k, formatStripeAmount_cents⟩

/-- Witness for C18 as amended: the total 19.99, read as a double, is sent as
1999. -/
theorem createPaymentIntent_amount_witness :
    toDouble (1999 / 100) = double1999 ∧
    (createPaymentIntent sampleProvider double1999 "usd").2 =
      [{ amount := formatStripeAmount double1999, currency := "usd",
         automaticPaymentMethods := true }] ∧
    formatStripeAmount double1999 = 1999 :=
  ⟨toDouble_1999,
   (createPaymentIntent_amount sampleProvider double1999 "usd"
      (by rw [abs_of_pos (by norm_num [double1999])]; norm_num [double1999])).1,
   (createPaymentIntent_amount sampleProvider double1999 "usd"
      (by rw [abs_of_pos (by norm_num [double1999])]; norm_num [double1999])).2.2.2.2.2.2.1 1999
      (by rw [abs_of_pos (by norm_num [double1999])]; norm_num [double1999])
      (by rw [abs_le]; constructor <;> norm_num [double1999])⟩

/-- A loaded order that `save()` accepts is written back as it is. -/
theorem Order.validate_toDraft (o s : Order)
    (h : Order.validate o._id o.toDraft = Except.ok s) : s = o := by
  unfold Order.validate Order.toDraft at h
  dsimp only at h
  split_ifs at h
  cases h
  rfl

/-- After `updateFirst` on a collection in which the query finds `r`, every
position holds its old document, except the position of `r`, which holds the
image of `r`. -/
theorem updateFirst_positions {α : Type} (q : α → Bool) (f : α → α) (l : List α) (r : α)
    (h : l.find? q = some r) :
    ∀ (i : Nat) (x : α), l[i]? = some x →
      (updateFirst q f l)[i]? = some x ∨ (x = r ∧ (updateFirst q f l)[i]? = some (f r)) := by
  induction l with
  | nil => simp at h
  | cons a as ih =>
    intro i x hx
    by_cases hq : q a = true
    · have hr : a = r := by simpa [List.find?_cons, hq] using h
      subst hr
      cases i with
      | zero =>
        right
        simp only [List.getElem?_cons_zero, Option.some.injEq] at hx
        exact ⟨hx.symm, by simp [updateFirst, hq]⟩
      | succ j =>
        left
        simp only [List.getElem?_cons_succ] at hx
        simp [updateFirst, hq, hx]
    · have hq' : q a = false := by simpa using hq
      have h' : as.find? q = some r := by simpa [List.find?_cons, hq'] using h
      have hu : updateFirst q f (a :: as) = a :: updateFirst q f as := by
        simp [updateFirst, hq']
      rw [hu]
      cases i with
      | zero =>
        left
        simpa using hx
      | succ j =>
        simp only [List.getElem?_cons_succ] at hx ⊢
        exact ih h' j x hx

/-- C19: for an order id with no match the handler answers 404, calls the
provider not at all and leaves the orders as they are; when it answers 200, the
order found by the id has received as `paymentId` the identifier that the
provider returned for its total, with every other field of it and every other
order unchanged. -/
theorem createPaymentIntentRoute_frame (provider : Provider) (id : Nat) (orders : List Order) :
    (Order.findById orders id = none →
      createPaymentIntentRoute provider (some id) orders =
        ({ status := 404, body := Payload.message "Order not found" }, orders, [])) ∧
    ((createPaymentIntentRoute provider (some id) orders).1.status = 200 →
      ∃ o pi, Order.findById orders id = some o ∧
        provider { amount := formatStripeAmount o.totalAmount, currency := "usd",
                   automaticPaymentMethods := true } = some pi ∧
        (createPaymentIntentRoute provider (some id) orders).1.body =
          Payload.intent pi.client_secret pi.id ∧
        (createPaymentIntentRoute provider (some id) orders).2.1 =
          updateFirst (fun x => x._id == id) (fun _ => { o with paymentId := some pi.id })
            orders ∧
        Order.findById (createPaymentIntentRoute provider (some id) orders).2.1 id =
          some { o with paymentId := some pi.id } ∧
        ∀ (i : Nat) (x : Order), orders[i]? = some x →
          (createPaymentIntentRoute provider (some id) orders).2.1[i]? = some x ∨
          (x = o ∧ (createPaymentIntentRoute provider (some id) orders).2.1[i]? =
            some { o with paymentId := some pi.id })) := by
  constructor
  · intro hnone
    simp [createPaymentIntentRoute, hnone]
  · intro h200
    cases hf : Order.findById orders id with
    | none => simp [createPaymentIntentRoute, hf] at h200
    | some o =>
      have hid : o._id = id := by
        have := List.find?_some hf
        simpa using this
      subst hid
      cases hp : provider { amount := Math.round (fmul o.totalAmount 100), currency := "usd",
                            automaticPaymentMethods := true } with
      | none =>
        simp [createPaymentIntentRoute, hf, createPaymentIntent, hp] at h200
      | some pi =>
        cases hval : Order.validate o._id
            (Order.toDraft { o with paymentId := some pi.id }) with
        | error e =>
          simp [createPaymentIntentRoute, hf, createPaymentIntent, hp, hval] at h200
        | ok saved =>
          have hs : saved = { o with paymentId := some pi.id } :=
            Order.validate_toDraft { o with paymentId := some pi.id } saved hval
          subst hs
          by_cases hdup : orders.any
              (fun x => x._id != o._id && x.paymentId == some pi.id) = true
          · have hdup' : ∃ x ∈ orders, ¬x._id = o._id ∧ x.paymentId = some pi.id := by
              simpa using hdup
            simp [createPaymentIntentRoute, hf, createPaymentIntent, hp, hval, hdup'] at h200
          · have hres : createPaymentIntentRoute provider (some o._id) orders =
                ({ status := 200, body := Payload.intent pi.client_secret pi.id },
                 updateFirst (fun x => x._id == o._id)
                   (fun _ => { o with paymentId := some pi.id }) orders,
                 [{ amount := formatStripeAmount o.totalAmount, currency := "usd",
                    automaticPaymentMethods := true }]) := by
              have hdup' : ¬ ∃ x ∈ orders, ¬x._id = o._id ∧ x.paymentId = some pi.id := by
                simpa using hdup
              simp [createPaymentIntentRoute, hf, createPaymentIntent, hp, hval, hdup',
                formatStripeAmount]
            have hfind : orders.find? (fun x => x._id == o._id) = some o := hf
            refine ⟨o, pi, rfl, hp, ?_, ?_, ?_, ?_⟩
            · rw [hres]
            · rw [hres]
            · rw [hres]
              exact find?_updateFirst (fun x => x._id == o._id)
                { o with paymentId := some pi.id } orders o hfind (by simp)
            · rw [hres]
              exact updateFirst_positions (fun x => x._id == o._id)
                (fun _ => { o with paymentId := some pi.id }) orders o hfind

/-- Witness for C19: an id with no match, and the order 1 of a store of two
orders. -/
theorem createPaymentIntentRoute_frame_witness :
    createPaymentIntentRoute sampleProvider (some 3) [sampleOrder 1 "pending" none] =
      ({ status := 404, body := Payload.message "Order not found" },
       [sampleOrder 1 "pending" none], []) ∧
    ∃ o pi, Order.findById [sampleOrder 1 "pending" none, sampleOrder 2 "pending" none] 1 =
        some o ∧
      sampleProvider { amount := formatStripeAmount o.totalAmount, currency := "usd",
                       automaticPaymentMethods := true } = some pi ∧
      (createPaymentIntentRoute sampleProvider (some 1)
          [sampleOrder 1 "pending" none, sampleOrder 2 "pending" none]).1.body =
        Payload.intent pi.client_secret pi.id ∧
      (createPaymentIntentRoute sampleProvider (some 1)
          [sampleOrder 1 "pending" none, sampleOrder 2 "pending" none]).2.1 =
        updateFirst (fun x => x._id == 1) (fun _ => { o with paymentId := some pi.id })
          [sampleOrder 1 "pending" none, sampleOrder 2 "pending" none] ∧
      Order.findById (createPaymentIntentRoute sampleProvider (some 1)
          [sampleOrder 1 "pending" none, sampleOrder 2 "pending" none]).2.1 1 =
        some { o with paymentId := some pi.id } ∧
      ∀ (i : Nat) (x : Order),
        [sampleOrder 1 "pending" none, sampleOrder 2 "pending" none][i]? = some x →
        (createPaymentIntentRoute sampleProvider (some 1)
            [sampleOrder 1 "pending" none, sampleOrder 2 "pending" none]).2.1[i]? = some x ∨
        (x = o ∧ (createPaymentIntentRoute sampleProvider (some 1)
            [sampleOrder 1 "pending" none, sampleOrder 2 "pending" none]).2.1[i]? =
          some { o with paymentId := some pi.id }) :=
  ⟨(createPaymentIntentRoute_frame sampleProvider 3 [sampleOrder 1 "pending" none]).1
      (by decide),
   (createPaymentIntentRoute_frame sampleProvider 1
      [sampleOrder 1 "pending" none, sampleOrder 2 "pending" none]).2 (by decide)⟩

/-! ## Theorems: admin role -/

/-- C20: for every caller whose role is not `admin`, menu create, menu update,
menu delete, the order status update and the review moderation answer 403 and
leave their collection as it is, for every request body, valid or not. -/
theorem non_admin_forbidden (user : User) (h : user.role ≠ "admin") (id : Nat)
    (mb : MenuBody) (menu : List MenuItem) (status : String) (orders : List Order)
    (now : Nat) (moderationComment : Option String) (reviews : List Review) :
    createMenuItem user mb menu =
      ({ status := 403, body := Payload.message "Not authorized" }, menu) ∧
    updateMenuItem user id mb menu =
      ({ status := 403, body := Payload.message "Not authorized" }, menu) ∧
    deleteMenuItem user id menu =
      ({ status := 403, body := Payload.message "Not authorized" }, menu) ∧
    updateOrderStatus user id status orders =
      ({ status := 403, body := Payload.message "Not authorized" }, orders) ∧
    moderateReview now user id status moderationComment reviews =
      ({ status := 403, body := Payload.message "Not authorized" }, reviews) := by
  refine ⟨?_, ?_, ?_, ?_, ?_⟩
  · simp [createMenuItem, h]
  · simp [updateMenuItem, h]
  · simp [deleteMenuItem, h]
  · simp [updateOrderStatus, h]
  · simp [moderateReview, h]

/-- Witness for C20: the customer `alice` with a menu body that fails every
validator and with the status `bogus`, which both status validators reject. -/
theorem non_admin_forbidden_witness :
    createMenuItem alice invalidMenuBody sampleMenu =
      ({ status := 403, body := Payload.message "Not authorized" }, sampleMenu) ∧
    updateMenuItem alice 1 invalidMenuBody sampleMenu =
      ({ status := 403, body := Payload.message "Not authorized" }, sampleMenu) ∧
    deleteMenuItem alice 1 sampleMenu =
      ({ status := 403, body := Payload.message "Not authorized" }, sampleMenu) ∧
    updateOrderStatus alice 1 "bogus" [sampleOrder 1 "pending" none] =
      ({ status := 403, body := Payload.message "Not authorized" },
       [sampleOrder 1 "pending" none]) ∧
    moderateReview 9 alice 1 "bogus" none [storedReview 1] =
      ({ status := 403, body := Payload.message "Not authorized" }, [storedReview 1]) :=
  non_admin_forbidden alice (by decide) 1 invalidMenuBody sampleMenu "bogus"
    [sampleOrder 1 "pending" none] 9 none [storedReview 1]

/-! ## Theorems: webhook module scope -/

/-- C26: routes/payments.js binds no identifier `stripe`; for every payload and
signature the evaluation of `stripe.webhooks.constructEvent` throws a
ReferenceError inside the `try`, the handler answers 400 with the text of the
error without reaching the `switch`, and the orders are left as they are,
whatever the library would have verified. -/
theorem webhook_always_rejects (lib : StripeLib) (req : WebhookReq) (orders : List Order) :
    "stripe" ∉ paymentsModuleScope ∧
    constructEventCall paymentsModuleScope lib req =
      Except.error (Thrown.referenceError "stripe") ∧
    webhook lib req orders =
      ({ status := 400, body := Payload.text "Webhook Error: stripe is not defined" },
       orders) := by
  have hs : "stripe" ∉ paymentsModuleScope := by decide
  have hc : constructEventCall paymentsModuleScope lib req =
      Except.error (Thrown.referenceError "stripe") := by
    simp [constructEventCall, evalStripe, hs]
  refine ⟨hs, hc, ?_⟩
  unfold webhook webhookIn
  rw [hc]
  rfl

/-! ## Theorems: refunds -/

/-- C30: `validateRefundAmount` throws the greater-than-0 error when the refund
is at most 0 (also when it exceeds the original amount), throws the
cannot-exceed error when the refund is positive and above the original amount,
and returns `true` exactly when the refund is positive and at most the original
amount; a full refund of a positive amount is accepted. -/
theorem validateRefundAmount_spec (refundAmount originalAmount : ℚ) :
    (refundAmount ≤ 0 →
      validateRefundAmount refundAmount originalAmount =
        Except.error "Refund amount must be greater than 0") ∧
    (0 < refundAmount → originalAmount < refundAmount →
      validateRefundAmount refundAmount originalAmount =
        Except.error "Refund amount cannot exceed original payment amount") ∧
    (validateRefundAmount refundAmount originalAmount = Except.ok true ↔
      0 < refundAmount ∧ refundAmount ≤ originalAmount) ∧
    ((∃ e, validateRefundAmount refundAmount originalAmount = Except.error e) ↔
      (refundAmount ≤ 0 ∨ originalAmount < refundAmount)) ∧
    (0 < originalAmount →
      validateRefundAmount originalAmount originalAmount = Except.ok true) := by
  refine ⟨?_, ?_, ?_, ?_, ?_⟩
  · intro h
    simp [validateRefundAmount, h]
  · intro h1 h2
    simp [validateRefundAmount, not_le.mpr h1, h2]
  · by_cases h1 : refundAmount ≤ 0
    · simp [validateRefundAmount, h1]
    · by_cases h2 : originalAmount < refundAmount
      · simp [validateRefundAmount, h1, h2]
      · simp [validateRefundAmount, h1, h2, not_le.mp h1, not_lt.mp h2]
  · by_cases h1 : refundAmount ≤ 0
    · simp [validateRefundAmount, h1]
    · by_cases h2 : originalAmount < refundAmount
      · simp [validateRefundAmount, h1, h2]
      · simp [validateRefundAmount, h1, h2]
  · intro h
    simp [validateRefundAmount, not_le.mpr h]

/-- Witness for C30: a refund of -1 of an original amount of -5 (both conditions
hold), a refund of 60 of 50, and the full refund of 50. -/
theorem validateRefundAmount_spec_witness :
    validateRefundAmount (-1) (-5) = Except.error "Refund amount must be greater than 0" ∧
    validateRefundAmount 60 50 =
      Except.error "Refund amount cannot exceed original payment amount" ∧
    validateRefundAmount 50 50 = Except.ok true :=
  ⟨(validateRefundAmount_spec (-1) (-5)).1 (by norm_num),
   (validateRefundAmount_spec 60 50).2.1 (by norm_num) (by norm_num),
   (validateRefundAmount_spec 50 50).2.2.2.2 (by norm_num)⟩

/-! ## Theorems: notifications and success responses -/

/-- The function `sendEmail` never throws: a transport failure gives `false`. -/
theorem sendEmail_total (transport : Except Thrown Unit) :
    sendEmail transport = true ∨ sendEmail transport = false := by
  cases transport <;> simp [sendEmail]

/-- The templates of the order status update, of the order cancellation, of the
reservation update and of the reservation cancellation do not exist. -/
theorem missing_templates :
    callTemplate "orderStatusUpdate" =
      Except.error (Thrown.typeError "emailTemplates.orderStatusUpdate") ∧
    callTemplate "orderCancellation" =
      Except.error (Thrown.typeError "emailTemplates.orderCancellation") ∧
    callTemplate "reservationUpdate" =
      Except.error (Thrown.typeError "emailTemplates.reservationUpdate") ∧
    callTemplate "reservationCancellation" =
      Except.error (Thrown.typeError "emailTemplates.reservationCancellation") := by
  refine ⟨rfl, rfl, rfl, rfl⟩

/-- The order status update never answers 200. -/
theorem updateOrderStatus_never_ok (user : User) (id : Nat) (status : String)
    (orders : List Order) : (updateOrderStatus user id status orders).1.status ≠ 200 := by
  unfold updateOrderStatus
  split_ifs
  · simp
  · split
    · simp
    · dsimp only
      split
      · simp
      · simp [missing_templates.1]
  · simp

/-- The customer cancel of an order never answers 200. -/
theorem cancelOrder_never_ok (user : User) (id : Nat) (orders : List Order) :
    (cancelOrder user id orders).1.status ≠ 200 := by
  unfold cancelOrder
  split
  · simp
  · dsimp only
    split
    · simp
    · simp [missing_templates.2.1]

/-- The customer cancel of an order that the query does not find (no order of
the caller with the id and status `pending`) answers 404 and changes nothing. -/
theorem cancelOrder_not_found (user : User) (id : Nat) (orders : List Order)
    (h : orders.find? (cancelQuery user id) = none) :
    cancelOrder user id orders =
      ({ status := 404, body := Payload.message "Order not found or cannot be cancelled" },
       orders) := by
  simp [cancelOrder, h]

/-- The customer cancel of a pending order of the caller that `save()` accepts
writes `status = cancelled` and then answers 500. -/
theorem cancelOrder_found (user : User) (id : Nat) (orders : List Order) (o : Order)
    (h : orders.find? (cancelQuery user id) = some o)
    (hv : Order.validate o._id (Order.toDraft { o with status := "cancelled" }) =
      Except.ok { o with status := "cancelled" }) :
    cancelOrder user id orders =
      ({ status := 500, body := Payload.message "Error cancelling order" },
       updateFirst (cancelQuery user id) (fun _ => { o with status := "cancelled" }) orders) := by
  simp [cancelOrder, h, hv, missing_templates.2.1]

/-- C22, at an admin status update of an existing order to `preparing` and at a
valid order submission: the template `orderStatusUpdate` does not exist, so the
notification cannot be produced; the TypeError reaches the handler's `catch`
and the status update answers 500 although the new status is stored; the
order submission answers 500 and stores nothing. -/
theorem notification_failure_propagated :
    callTemplate "orderStatusUpdate" =
      Except.error (Thrown.typeError "emailTemplates.orderStatusUpdate") ∧
    updateOrderStatus root 1 "preparing" [sampleOrder 1 "pending" none] =
      ({ status := 500, body := Payload.message "Error updating order status" },
       [sampleOrder 1 "preparing" none]) ∧
    createOrder 0 alice sampleBody sampleMenu [] =
      ({ status := 500, body := Payload.message "Error creating order" }, []) := by
  refine ⟨rfl, by decide, by decide⟩

/-- C25, at a cancel request of `alice` for her pending order 1: the status
becomes `cancelled`, but the template `orderCancellation` does not exist and
the handler answers 500 with an error message instead of the success message;
for her delivered order the request answers 404 and the order is unchanged. -/
theorem cancelOrder_pending_answers_error :
    cancelOrder alice 1 [sampleOrder 1 "pending" none] =
      ({ status := 500, body := Payload.message "Error cancelling order" },
       [sampleOrder 1 "cancelled" none]) ∧
    cancelOrder alice 1 [sampleOrder 1 "delivered" none] =
      ({ status := 404, body := Payload.message "Order not found or cannot be cancelled" },
       [sampleOrder 1 "delivered" none]) := by
  refine ⟨by decide, by decide⟩

/-! ## Theorems: reservation update -/

/-- An update that passes validation, for a reservation of the caller, into a
slot in which the query finds 20 or more other reservations that are not
cancelled, answers 400 and changes nothing. -/
theorem updateReservation_full (user : User) (id : Nat) (b : ReservationBody)
    (rs : List Reservation) (r : Reservation) (d : Int)
    (hv : validateReservationBody b = []) (hd : b.date = DateArg.instant d)
    (hf : rs.find? (ownQuery user id) = some r)
    (hfull : 20 ≤ (rs.filter (slotQueryExcept d b.time id)).length) :
    updateReservation user id b rs =
      ({ status := 400, body := Payload.message "Selected time slot is fully booked" }, rs) := by
  simp [updateReservation, hv, hd, hf, hfull]

/-- An update that passes validation, for a reservation of the caller with a
status of the schema `enum`, into a slot in which the query finds fewer than 20
other reservations that are not cancelled, writes the new date, time, party
size and requests and then answers 500. -/
theorem updateReservation_applied (user : User) (id : Nat) (b : ReservationBody)
    (rs : List Reservation) (r : Reservation) (d : Int)
    (hv : validateReservationBody b = []) (hd : b.date = DateArg.instant d)
    (hf : rs.find? (ownQuery user id) = some r)
    (hfree : (rs.filter (slotQueryExcept d b.time id)).length < 20)
    (hst : r.status ∈ reservationStatusEnum) :
    updateReservation user id b rs =
      ({ status := 500, body := Payload.message "Error updating reservation" },
       updateFirst (ownQuery user id)
         (fun _ => { r with date := d, time := b.time, partySize := b.partySize,
                            specialRequests := b.specialRequests.map jsTrim }) rs) := by
  obtain ⟨_, _, hp1, _⟩ := validateReservationBody_nil b hv
  have hval := Reservation.validate_of_valid
    { r with date := d, time := b.time, partySize := b.partySize,
             specialRequests := b.specialRequests.map jsTrim } hp1 hst
  simp [updateReservation, hv, hd, hf, Nat.not_le.mpr hfree, hval, missing_templates.2.2.1]

/-- The number of documents that the slot query excluding an id returns is the
number of other reservations in the slot that are not cancelled. -/
theorem filter_slotQueryExcept_length (rs : List Reservation) (d : Int) (t : String) (id : Nat) :
    (rs.filter (slotQueryExcept d t id)).length =
      rs.countP (fun r => inSlot d t r && r._id != id) := by
  rw [List.countP_eq_length_filter]
  congr 2
  funext r
  exact slotQueryExcept_eq d t id r

/-- C27, at the slot (100, "19:00") with 20 confirmed reservations of `bob`: the
query of the update counts the 19 other reservations, the update of
reservation 3 within the slot passes the capacity check and is written, but
the template `reservationUpdate` does not exist and the handler answers 500;
the update that moves reservation 21 from another slot into the full slot
answers 400 and changes nothing. -/
theorem updateReservation_in_full_slot :
    slotCount fullSlot 100 "19:00" = 20 ∧
    (fullSlot.filter (slotQueryExcept 100 "19:00" 3)).length = 19 ∧
    updateReservation bob 3 sampleReservationBody fullSlot =
      ({ status := 500, body := Payload.message "Error updating reservation" },
       updateFirst (ownQuery bob 3)
         (fun _ => { sampleReservation 3 "confirmed" with partySize := 4 }) fullSlot) ∧
    (updateReservation bob 3 sampleReservationBody fullSlot).2[2]? =
      some { sampleReservation 3 "confirmed" with partySize := 4 } ∧
    updateReservation bob 21 sampleReservationBody fullSlotAndOther =
      ({ status := 400, body := Payload.message "Selected time slot is fully booked" },
       fullSlotAndOther) := by
  refine ⟨by decide, by decide, by decide, by decide, by decide⟩

/-! ## Theorems: empty order submission -/

/-- C28: an order submission with an empty `items` array and an order type of
`pickup` or `delivery` passes the validator chain and the loop, which returns
the total 0 and no lines; the total after the fee step is 0 for pickup and 5
for delivery; the handler does not answer 400 and builds a document without
lines (whose `save()` is then rejected, answered 500). -/
theorem createOrder_empty_items (now : Int) (user : User) (b : OrderBody)
    (menu : List MenuItem) (orders : List Order)
    (hi : b.items = some []) (ht : b.orderType = "pickup" ∨ b.orderType = "delivery") :
    validateOrderBody b = [] ∧
    orderLoop menu (b.items.getD []) 0 [] = Except.ok (0, []) ∧
    (b.orderType = "pickup" → addDeliveryFee b.orderType 0 = 0) ∧
    (b.orderType = "delivery" → addDeliveryFee b.orderType 0 = 5) ∧
    (Order.new now (orderInit user b [] (addDeliveryFee b.orderType 0))).items = [] ∧
    (createOrder now user b menu orders).1.status ≠ 400 ∧
    createOrder now user b menu orders =
      ({ status := 500, body := Payload.message "Error creating order" }, orders) := by
  have hv : validateOrderBody b = [] := by
    rcases ht with h | h <;> simp [validateOrderBody, hi, h]
  have hl : orderLoop menu (b.items.getD []) 0 [] = Except.ok (0, []) := by
    simp [hi, orderLoop]
  have hres : createOrder now user b menu orders =
      ({ status := 500, body := Payload.message "Error creating order" }, orders) := by
    unfold createOrder
    simp [hv, hl, Order.validate_new_orderInit]
  refine ⟨hv, hl, ?_, ?_, rfl, ?_, hres⟩
  · intro h
    simp [addDeliveryFee, h]
  · intro h
    simp [addDeliveryFee, h]
  · rw [hres]
    simp

/-- Witness for C28: the empty pickup submission and the empty delivery
submission. -/
theorem createOrder_empty_items_witness :
    (validateOrderBody emptyPickupBody = [] ∧
      orderLoop sampleMenu (emptyPickupBody.items.getD []) 0 [] = Except.ok (0, []) ∧
      addDeliveryFee emptyPickupBody.orderType 0 = 0 ∧
      (createOrder 0 alice emptyPickupBody sampleMenu []).1.status ≠ 400) ∧
    (validateOrderBody emptyDeliveryBody = [] ∧
      orderLoop sampleMenu (emptyDeliveryBody.items.getD []) 0 [] = Except.ok (0, []) ∧
      addDeliveryFee emptyDeliveryBody.orderType 0 = 5 ∧
      (createOrder 0 alice emptyDeliveryBody sampleMenu []).1.status ≠ 400) :=
  ⟨⟨(createOrder_empty_items 0 alice emptyPickupBody sampleMenu [] rfl (Or.inl rfl)).1,
    (createOrder_empty_items 0 alice emptyPickupBody sampleMenu [] rfl (Or.inl rfl)).2.1,
    (createOrder_empty_items 0 alice emptyPickupBody sampleMenu [] rfl (Or.inl rfl)).2.2.1 rfl,
    (createOrder_empty_items 0 alice emptyPickupBody sampleMenu [] rfl
      (Or.inl rfl)).2.2.2.2.2.1⟩,
   ⟨(createOrder_empty_items 0 alice emptyDeliveryBody sampleMenu [] rfl (Or.inr rfl)).1,
    (createOrder_empty_items 0 alice emptyDeliveryBody sampleMenu [] rfl (Or.inr rfl)).2.1,
    (createOrder_empty_items 0 alice emptyDeliveryBody sampleMenu [] rfl
      (Or.inr rfl)).2.2.2.1 rfl,
    (createOrder_empty_items 0 alice emptyDeliveryBody sampleMenu [] rfl
      (Or.inr rfl)).2.2.2.2.2.1⟩⟩

/-! ## Theorems: ownership -/

/-- C21, as stated, fails: `bob` owns reservation 3; the update request of
`alice` for it with a time that fails the validator is answered 400 with the
validation errors, not 404 (the reservation is unchanged and none of its data
is returned). -/
theorem foreign_update_invalid_body :
    (sampleReservation 3 "confirmed").user = bob._id ∧ bob._id ≠ alice._id ∧
    fullSlot[2]? = some (sampleReservation 3 "confirmed") ∧
    updateReservation alice 3 badTimeBody fullSlot =
      ({ status := 400, body := Payload.errors ["Valid time is required"] }, fullSlot) := by
  refine ⟨by decide, by decide, by decide, by decide⟩

/-- C21, amended: when every Order with the id `oid` and every Reservation with
the id `rid` is owned by a user other than the caller, the caller's read and
cancel requests for them, and the caller's update request for the reservation
when its body passes validation, answer 404 with a not-found message; an
update with an invalid body answers 400 with the validation errors; every one
of these requests leaves the collection as it is. -/
theorem foreign_record_not_found (user : User) (oid rid : Nat) (b : ReservationBody)
    (orders : List Order) (rs : List Reservation)
    (ho : ∀ o ∈ orders, o._id = oid → o.user ≠ user._id)
    (hr : ∀ r ∈ rs, r._id = rid → r.user ≠ user._id) :
    getOrder user oid orders = { status := 404, body := Payload.message "Order not found" } ∧
    cancelOrder user oid orders =
      ({ status := 404, body := Payload.message "Order not found or cannot be cancelled" },
       orders) ∧
    getReservation user rid rs =
      { status := 404, body := Payload.message "Reservation not found" } ∧
    cancelReservation user rid rs =
      ({ status := 404, body := Payload.message "Reservation not found" }, rs) ∧
    (validateReservationBody b = [] →
      updateReservation user rid b rs =
        ({ status := 404, body := Payload.message "Reservation not found" }, rs)) ∧
    (validateReservationBody b ≠ [] →
      updateReservation user rid b rs =
        ({ status := 400, body := Payload.errors (validateReservationBody b) }, rs)) := by
  have hfo : orders.find? (fun o => o._id == oid && o.user == user._id) = none := by
    rw [List.find?_eq_none]
    intro o hmem hq
    have : o._id = oid ∧ o.user = user._id := by simpa using hq
    exact ho o hmem this.1 this.2
  have hfc : orders.find? (cancelQuery user oid) = none := by
    rw [List.find?_eq_none]
    intro o hmem hq
    have : (o._id = oid ∧ o.user = user._id) ∧ o.status = "pending" := by
      simpa [cancelQuery] using hq
    exact ho o hmem this.1.1 this.1.2
  have hfr : rs.find? (ownQuery user rid) = none := by
    rw [List.find?_eq_none]
    intro r hmem hq
    have : r._id = rid ∧ r.user = user._id := by simpa [ownQuery] using hq
    exact hr r hmem this.1 this.2
  refine ⟨?_, ?_, ?_, ?_, ?_, ?_⟩
  · simp [getOrder, hfo]
  · simp [cancelOrder, hfc]
  · simp [getReservation, hfr]
  · simp [cancelReservation, hfr]
  · intro hv
    simp [updateReservation, hv, hfr]
  · intro hv
    simp [updateReservation, hv]

/-- Witness for C21 as amended: `alice` addresses order 2 and reservation 3,
which belong to `bob`. -/
theorem foreign_record_not_found_witness :
    getOrder alice 2 [{ sampleOrder 2 "pending" none with user := 2 }] =
      { status := 404, body := Payload.message "Order not found" } ∧
    cancelOrder alice 2 [{ sampleOrder 2 "pending" none with user := 2 }] =
      ({ status := 404, body := Payload.message "Order not found or cannot be cancelled" },
       [{ sampleOrder 2 "pending" none with user := 2 }]) ∧
    getReservation alice 3 fullSlot =
      { status := 404, body := Payload.message "Reservation not found" } ∧
    cancelReservation alice 3 fullSlot =
      ({ status := 404, body := Payload.message "Reservation not found" }, fullSlot) ∧
    updateReservation alice 3 sampleReservationBody fullSlot =
      ({ status := 404, body := Payload.message "Reservation not found" }, fullSlot) ∧
    updateReservation alice 3 badTimeBody fullSlot =
      ({ status := 400, body := Payload.errors (validateReservationBody badTimeBody) },
       fullSlot) :=
  ⟨(foreign_record_not_found alice 2 3 sampleReservationBody
      [{ sampleOrder 2 "pending" none with user := 2 }] fullSlot (by decide) (by decide)).1,
   (foreign_record_not_found alice 2 3 sampleReservationBody
      [{ sampleOrder 2 "pending" none with user := 2 }] fullSlot (by decide) (by decide)).2.1,
   (foreign_record_not_found alice 2 3 sampleReservationBody
      [{ sampleOrder 2 "pending" none with user := 2 }] fullSlot (by decide) (by decide)).2.2.1,
   (foreign_record_not_found alice 2 3 sampleReservationBody
      [{ sampleOrder 2 "pending" none with user := 2 }] fullSlot
      (by decide) (by decide)).2.2.2.1,
   (foreign_record_not_found alice 2 3 sampleReservationBody
      [{ sampleOrder 2 "pending" none with user := 2 }] fullSlot
      (by decide) (by decide)).2.2.2.2.1 (by decide),
   (foreign_record_not_found alice 2 3 badTimeBody
      [{ sampleOrder 2 "pending" none with user := 2 }] fullSlot
      (by decide) (by decide)).2.2.2.2.2 (by decide)⟩

/-! ## Theorems: reservation time validator -/

/-- The test `isDigit` holds exactly for the digits 0 to 9. -/
theorem isDigit_iff (c : Char) : c.isDigit = true ↔ isDigitChar c := by
  simp [Char.isDigit, isDigitChar, Char.toNat, UInt32.le_def, UInt32.toNat, BitVec.le_def]

/-- Characters are ordered by their code. -/
theorem char_le_iff (c d : Char) : c ≤ d ↔ c.toNat ≤ d.toNat := by
  rfl

/-- Characters with the same code are equal. -/
theorem char_eq_iff (c d : Char) : c = d ↔ c.toNat = d.toNat := by
  constructor
  · intro h; rw [h]
  · intro h
    apply Char.ext
    apply UInt32.ext
    simpa [Char.toNat, UInt32.toNat] using h

/-- The matcher of the regular expression accepts exactly the strings of the
spec-side predicate. -/
theorem matchesTime_iff (s : String) : matchesTime s = true ↔ timeSpec s := by
  have c0 : ('0' : Char).toNat = 48 := rfl
  have c1 : ('1' : Char).toNat = 49 := rfl
  have c2 : ('2' : Char).toNat = 50 := rfl
  have c3 : ('3' : Char).toNat = 51 := rfl
  have c5 : ('5' : Char).toNat = 53 := rfl
  have cc : (':' : Char).toNat = 58 := rfl
  unfold matchesTime timeSpec
  constructor
  · intro h
    split at h
    · next hd c m1 m2 heq =>
      simp only [Bool.and_eq_true, beq_iff_eq, decide_eq_true_eq, isDigit_iff, char_le_iff,
        char_eq_iff c, c0, c5, cc] at h
      obtain ⟨⟨⟨hh, hc⟩, hm1a, hm1b⟩, hm2⟩ := h
      have hc' : c = ':' := (char_eq_iff c ':').mpr (by rw [hc, cc])
      subst hc'
      refine ⟨[hd], m1, m2, by simpa using heq, Or.inl ⟨hd, rfl, hh⟩, ?_, hm2, ?_⟩
      · exact ⟨hm1a, by omega⟩
      · unfold isDigitChar at hm2
        unfold digitValue
        omega
    · next h1 h2 c m1 m2 heq =>
      simp only [Bool.and_eq_true, Bool.or_eq_true, beq_iff_eq, decide_eq_true_eq, isDigit_iff,
        char_le_iff, char_eq_iff c, char_eq_iff h1, c0, c1, c2, c3, c5, cc] at h
      obtain ⟨⟨⟨hhour, hc⟩, hm1a, hm1b⟩, hm2⟩ := h
      have hc' : c = ':' := (char_eq_iff c ':').mpr (by rw [hc, cc])
      subst hc'
      refine ⟨[h1, h2], m1, m2, by simpa using heq, Or.inr ⟨h1, h2, rfl, ?_, ?_, ?_⟩, ?_, hm2, ?_⟩
      · unfold isDigitChar at *
        omega
      · unfold isDigitChar at *
        omega
      · unfold isDigitChar digitValue at *
        omega
      · exact ⟨hm1a, by omega⟩
      · unfold isDigitChar at hm2
        unfold digitValue
        omega
    · cases h
  · rintro ⟨hour, m1, m2, hdata, hhour, hm1, hm2, hmin⟩
    have hm1' : decide ('0' ≤ m1) = true ∧ decide (m1 ≤ '5') = true := by
      simp only [decide_eq_true_eq, char_le_iff, c0, c5]
      unfold isDigitChar digitValue at *
      omega
    have hm2' : m2.isDigit = true := (isDigit_iff m2).mpr hm2
    rcases hhour with ⟨h, rfl, hh⟩ | ⟨h1, h2, rfl, hh1, hh2, hval⟩
    · have hd : s.data = [h, ':', m1, m2] := by simpa using hdata
      rw [hd]
      simp [(isDigit_iff h).mpr hh, hm1'.1, hm1'.2, hm2']
    · have hd : s.data = [h1, h2, ':', m1, m2] := by simpa using hdata
      rw [hd]
      have hhour : (((h1 == '0' || h1 == '1') && h2.isDigit) ||
          (h1 == '2' && (decide ('0' ≤ h2) && decide (h2 ≤ '3')))) = true := by
        simp only [Bool.and_eq_true, Bool.or_eq_true, beq_iff_eq, decide_eq_true_eq,
          isDigit_iff, char_le_iff, char_eq_iff h1, c0, c1, c2, c3]
        unfold isDigitChar digitValue at *
        omega
      simp [hhour, hm1'.1, hm1'.2, hm2']

/-- C29: the time validator accepts a string exactly when it is an hour written
as one digit or as two digits of value 00 to 23, a colon and a minute written
as two digits of value 00 to 59, with nothing before or after; for a body whose
time is any other string the reservation create and the reservation update
answer 400 with the validation errors and change nothing. -/
theorem time_validator_spec (s : String) (user : User) (id : Nat) (b : ReservationBody)
    (rs : List Reservation) :
    (matchesTime s = true ↔ timeSpec s) ∧
    (¬ timeSpec b.time →
      "Valid time is required" ∈ validateReservationBody b ∧
      createReservation user b rs =
        ({ status := 400, body := Payload.errors (validateReservationBody b) }, rs) ∧
      updateReservation user id b rs =
        ({ status := 400, body := Payload.errors (validateReservationBody b) }, rs)) := by
  refine ⟨matchesTime_iff s, ?_⟩
  intro hno
  have hm : matchesTime b.time = false := by
    cases hmt : matchesTime b.time with
    | false => rfl
    | true => exact absurd ((matchesTime_iff b.time).mp hmt) hno
  have hmem : "Valid time is required" ∈ validateReservationBody b := by
    simp [validateReservationBody, hm]
  have hne : validateReservationBody b ≠ [] := List.ne_nil_of_mem hmem
  refine ⟨hmem, ?_, ?_⟩
  · simp [createReservation, hne]
  · simp [updateReservation, hne]

/-- Witness for C29: the string "9:05" and a request with the time "25:00". -/
theorem time_validator_spec_witness :
    (matchesTime "9:05" = true ↔ timeSpec "9:05") ∧
    ("Valid time is required" ∈ validateReservationBody badTimeBody ∧
      createReservation bob badTimeBody fullSlot =
        ({ status := 400, body := Payload.errors (validateReservationBody badTimeBody) },
         fullSlot) ∧
      updateReservation bob 3 badTimeBody fullSlot =
        ({ status := 400, body := Payload.errors (validateReservationBody badTimeBody) },
         fullSlot)) :=
  ⟨(time_validator_spec "9:05" bob 3 badTimeBody fullSlot).1,
   (time_validator_spec "9:05" bob 3 badTimeBody fullSlot).2
     (fun h => absurd ((matchesTime_iff badTimeBody.time).mpr h) (by decide))⟩

/-! ## Theorems: price snapshot of order lines -/

/-- Every line that the loop of orders.js lines 61-75 appends names a menu item
found in the catalog and carries the price that the item has at that time. -/
theorem orderLoop_prices (menu : List MenuItem) (ls : List OrderLineReq) :
    ∀ (total : ℚ) (acc : List OrderItem) (t : ℚ) (items : List OrderItem),
      orderLoop menu ls total acc = Except.ok (t, items) →
      ∃ added, items = acc ++ added ∧ added.length = ls.length ∧
        ∀ line ∈ added, ∃ m,
          MenuItem.findById menu (some (IdArg.oid line.menuItem)) = Except.ok (some m) ∧
          line.price = m.price := by
  induction ls with
  | nil =>
    intro total acc t items h
    simp only [orderLoop, Except.ok.injEq, Prod.mk.injEq] at h
    exact ⟨[], by simp [h.2], rfl, by simp⟩
  | cons item rest ih =>
    intro total acc t items h
    unfold orderLoop at h
    cases hf : MenuItem.findById menu item.menuItem with
    | error e => rw [hf] at h; cases h
    | ok r =>
      cases r with
      | none => rw [hf] at h; cases h
      | some m =>
        rw [hf] at h
        dsimp only at h
        split_ifs at h with hav
        obtain ⟨added, hitems, hlen, hall⟩ := ih _ _ _ _ h
        refine ⟨{ menuItem := m._id, quantity := item.quantity, price := m.price } :: added,
          by simp [hitems], by simp [hlen], ?_⟩
        intro line hline
        rcases List.mem_cons.mp hline with rfl | hin
        · refine ⟨m, ?_, rfl⟩
          cases hid : item.menuItem with
          | none => rw [hid] at hf; simp [MenuItem.findById] at hf
          | some v =>
            cases v with
            | malformed x => rw [hid] at hf; simp [MenuItem.findById] at hf
            | oid i =>
              rw [hid] at hf
              simp only [MenuItem.findById, Except.ok.injEq] at hf ⊢
              have hm := List.find?_some hf
              have hmi : m._id = i := by simpa using hm
              rw [hmi]; exact hf
        · exact hall line hin

/-- The constructor keeps the lines of the object literal as they are. -/
theorem Order.new_orderInit_items (now : Int) (user : User) (b : OrderBody)
    (items : List OrderItem) (total : ℚ) :
    (Order.new now (orderInit user b items total)).items = items := by
  rfl

/-- C23, at the example submission (2 of item 1 at 10.00, 1 of item 2 at 5.00):
the loop copies the catalog prices 10 and 5 into the lines and the document
handed to `save()` carries these lines, but `save()` rejects the document for
its missing `totalAmount`, the handler answers 500 and the collection is as
before: no order line is persisted, here or for any other submission.  The
second half of the claim holds: the administrator then sets the price of item
1 to 12, the catalog shows it, and the stored orders are as before. -/
theorem order_lines_not_persisted :
    orderLoop sampleMenu (sampleBody.items.getD []) 0 [] =
      Except.ok (25, [{ menuItem := 1, quantity := 2, price := 10 },
                      { menuItem := 2, quantity := 1, price := 5 }]) ∧
    (Order.new 0 (orderInit alice sampleBody
        [{ menuItem := 1, quantity := 2, price := 10 },
         { menuItem := 2, quantity := 1, price := 5 }] 30)).items =
      [{ menuItem := 1, quantity := 2, price := 10 },
       { menuItem := 2, quantity := 1, price := 5 }] ∧
    Order.validate 8 (Order.new 0 (orderInit alice sampleBody
        [{ menuItem := 1, quantity := 2, price := 10 },
         { menuItem := 2, quantity := 1, price := 5 }] 30)) =
      Except.error (Thrown.validationError "totalAmount") ∧
    createOrder 0 alice sampleBody sampleMenu [sampleOrder 7 "delivered" none] =
      ({ status := 500, body := Payload.message "Error creating order" },
       [sampleOrder 7 "delivered" none]) ∧
    (∀ (now : Int) (user : User) (b : OrderBody) (menu : List MenuItem) (orders : List Order),
      (createOrder now user b menu orders).2 = orders) ∧
    (Db.putMenuItem root 1 priceChangeBody sampleDb).1.status = 200 ∧
    ((Db.putMenuItem root 1 priceChangeBody sampleDb).2.menu.map (fun m => m.price)) =
      [12, 5, 7] ∧
    (Db.putMenuItem root 1 priceChangeBody sampleDb).2.orders = sampleDb.orders := by
  refine ⟨?_, rfl, Order.validate_new_orderInit _ _ _ _ _ _, by decide,
    createOrder_never_persists, by decide, by decide, rfl⟩
  simp [orderLoop, sampleMenu, sampleBody, MenuItem.findById]
  norm_num

/-! ## Theorems: the daily revenue series of the dashboard -/

/-- The days of the `$group` stage are the distinct days of its input. -/
theorem revenueGroup_keys (os : List Order) :
    (revenueGroup os).map Prod.fst = (os.map (fun o => dayOf o.createdAt)).dedup := by
  simp [revenueGroup, List.map_map, Function.comp_def]

/-- The `$sort` stage permutes its input. -/
theorem revenueSort_perm (gs : List (Int × ℚ)) : (revenueSort gs).Perm gs :=
  List.perm_insertionSort _ gs

/-- The days of the series ascend strictly: no day occurs twice. -/
theorem dailyRevenue_keys_ascending (now : Int) (orders : List Order) :
    ((dailyRevenue now orders).map Prod.fst).Pairwise (fun a b => a < b) := by
  haveI : IsTotal (Int × ℚ) (fun a b => a.1 ≤ b.1) := ⟨fun a b => le_total a.1 b.1⟩
  haveI : IsTrans (Int × ℚ) (fun a b => a.1 ≤ b.1) := ⟨fun _ _ _ h1 h2 => le_trans h1 h2⟩
  have hs : (dailyRevenue now orders).Pairwise (fun a b => a.1 ≤ b.1) :=
    List.sorted_insertionSort (fun a b : Int × ℚ => a.1 ≤ b.1) _
  have hle : ((dailyRevenue now orders).map Prod.fst).Pairwise (fun a b => a ≤ b) :=
    List.pairwise_map.mpr hs
  have hnd : ((dailyRevenue now orders).map Prod.fst).Nodup := by
    have hp : ((dailyRevenue now orders).map Prod.fst).Perm
        ((revenueGroup (revenueMatch now orders)).map Prod.fst) :=
      (revenueSort_perm _).map _
    rw [hp.nodup_iff, revenueGroup_keys]
    exact List.nodup_dedup _
  exact List.Sorted.lt_of_le hle hnd

/-- A day has an entry in the series exactly when an order was created on it at
or after the cutoff instant. -/
theorem dailyRevenue_mem_keys (now : Int) (orders : List Order) (day : Int) :
    day ∈ (dailyRevenue now orders).map Prod.fst ↔
      ∃ o ∈ orders, revenueCutoff now ≤ o.createdAt ∧ dayOf o.createdAt = day := by
  have hp : ((dailyRevenue now orders).map Prod.fst).Perm
      ((revenueGroup (revenueMatch now orders)).map Prod.fst) :=
    (revenueSort_perm _).map _
  rw [hp.mem_iff, revenueGroup_keys, List.mem_dedup]
  simp only [revenueMatch, List.mem_map, List.mem_filter, decide_eq_true_eq]
  constructor
  · rintro ⟨o, ⟨ho, hc⟩, hd⟩
    exact ⟨o, ho, hc, hd⟩
  · rintro ⟨o, ho, hc, hd⟩
    exact ⟨o, ⟨ho, hc⟩, hd⟩

/-- The amount of an entry is the sum of `totalAmount` over the orders created
on its day at or after the cutoff instant. -/
theorem dailyRevenue_amount (now : Int) (orders : List Order) (e : Int × ℚ)
    (he : e ∈ dailyRevenue now orders) : e.2 = windowDaySum now orders e.1 := by
  have he2 : e ∈ revenueGroup (revenueMatch now orders) := (revenueSort_perm _).mem_iff.mp he
  simp only [revenueGroup, List.mem_map] at he2
  obtain ⟨d, _, rfl⟩ := he2
  simp only [windowDaySum, revenueMatch, List.filter_filter]
  congr 2
  apply List.filter_congr
  intro o _
  by_cases h1 : revenueCutoff now ≤ o.createdAt <;> by_cases h2 : dayOf o.createdAt = d <;>
    simp [h1, h2]

/-- The series at noon of day 40 over the two orders of day 10: the cutoff is
noon of day 10, so the order of 08:00 is left out and the entry of day 10
holds 20. -/
theorem dailyRevenue_boundaryOrders : dailyRevenue noonOfDay40 boundaryOrders = [(10, 20)] := by
  have hk : (dailyRevenue noonOfDay40 boundaryOrders).map Prod.fst = [10] := by decide
  have hw : windowDaySum noonOfDay40 boundaryOrders 10 = 20 := by
    simp [windowDaySum, boundaryOrders, orderAt, sampleOrder, revenueCutoff, noonOfDay40,
      dayOf, dayMs, List.filter]
  cases hl : dailyRevenue noonOfDay40 boundaryOrders with
  | nil => rw [hl] at hk; cases hk
  | cons e rest =>
    rw [hl] at hk
    simp only [List.map_cons, List.cons.injEq, List.map_eq_nil_iff] at hk
    obtain ⟨h1, h2⟩ := hk
    have ha := dailyRevenue_amount noonOfDay40 boundaryOrders e (by rw [hl]; exact List.mem_cons_self _ _)
    rw [h1, hw] at ha
    rw [h2]
    rcases e with ⟨d, a⟩
    simp only at h1 ha
    rw [h1, ha]

/-- C24, counterexample: at noon of day 40 the store holds two orders created
on day 10, at 08:00 with total 10 and at 18:00 with total 20; the second one
was created within the last 30 days, so day 10 has an entry, and the sum of
`totalAmount` over the orders created on day 10 is 30, but the dashboard
answers with the amount 20 for that day. -/
theorem dashboard_boundary_day_partial :
    (∀ o ∈ sampleDb.orders, dayOf o.createdAt = 10) ∧
    (∃ o ∈ sampleDb.orders, revenueCutoff noonOfDay40 ≤ o.createdAt) ∧
    daySum sampleDb.orders 10 = 30 ∧
    (dashboard noonOfDay40 sampleDb).1.status = 200 ∧
    (∃ a b c d ro rr,
      (dashboard noonOfDay40 sampleDb).1.body = Payload.dashboard a b c d ro rr [(10, 20)]) := by
  have hb : (dashboard noonOfDay40 sampleDb).1.body =
      Payload.dashboard _ _ _ _ _ _ (dailyRevenue noonOfDay40 boundaryOrders) := rfl
  rw [dailyRevenue_boundaryOrders] at hb
  refine ⟨by decide, by decide, ?_, rfl, ⟨_, _, _, _, _, _, hb⟩⟩
  simp [daySum, sampleDb, boundaryOrders, orderAt, sampleOrder, dayOf, dayMs, List.filter]
  norm_num

/-- C24, as the code has it: the dashboard answers 200 with the series
`dailyRevenue`, in which the days ascend strictly (so no day has two entries),
a day has an entry exactly when an order was created on it at or after the
instant thirty days before the request, and the amount of an entry is the sum
of `totalAmount` over the orders created on its day at or after that instant;
the handler leaves the database as it was. -/
theorem dashboard_dailyRevenue_window (now : Int) (db : Db) :
    (dashboard now db).1.status = 200 ∧
    (∃ a b c d ro rr,
      (dashboard now db).1.body = Payload.dashboard a b c d ro rr (dailyRevenue now db.orders)) ∧
    ((dailyRevenue now db.orders).map Prod.fst).Pairwise (fun a b => a < b) ∧
    (∀ day, day ∈ (dailyRevenue now db.orders).map Prod.fst ↔
      ∃ o ∈ db.orders, revenueCutoff now ≤ o.createdAt ∧ dayOf o.createdAt = day) ∧
    (∀ e ∈ dailyRevenue now db.orders, e.2 = windowDaySum now db.orders e.1) ∧
    (dashboard now db).2 = db :=
  ⟨rfl, ⟨_, _, _, _, _, _, rfl⟩, dailyRevenue_keys_ascending now db.orders,
   dailyRevenue_mem_keys now db.orders, dailyRevenue_amount now db.orders, rfl⟩

/-- C24 as the code has it, at noon of day 40 over the two orders of day 10:
day 10 has an entry, because the order of 18:00 was created after the cutoff,
the days of the series ascend, and the database is as before. -/
theorem dashboard_dailyRevenue_window_witness :
    (10 : Int) ∈ (dailyRevenue noonOfDay40 sampleDb.orders).map Prod.fst ∧
    ((dailyRevenue noonOfDay40 sampleDb.orders).map Prod.fst).Pairwise (fun a b => a < b) ∧
    (dashboard noonOfDay40 sampleDb).2 = sampleDb :=
  ⟨((dashboard_dailyRevenue_window noonOfDay40 sampleDb).2.2.2.1 10).mpr
     ⟨orderAt 2 (10 * dayMs + 18 * 3600000) 20, by decide, by decide, by decide⟩,
   (dashboard_dailyRevenue_window noonOfDay40 sampleDb).2.2.1,
   (dashboard_dailyRevenue_window noonOfDay40 sampleDb).2.2.2.2.2⟩

end Cafe
